import Mathlib

/-!
Verification model of the vecbook attendance decision engine
(src/database/db.py together with the configuration defaults of
src/backend/config.py).

Modelling conventions:

- Clock times are seconds since midnight (Nat).  The source stores them as
  zero-padded HH:MM:SS strings whose lexicographic order coincides with the
  numeric order used here, and compares them both as datetime.time values
  and as strings; both orders agree with the Nat order.
- Calendar dates are (year, month, day) triples ordered lexicographically,
  matching the YYYY-MM-DD string order used by the SQL queries.
- The sqlite store is modelled as explicit lists of rows in insertion
  order (rowid order).  The python sqlite3 driver runs with the default
  deferred-transaction isolation level: writes stay pending until
  commit(), and a connection that is closed or rolled back without a
  commit discards its pending writes.  Each modelled operation therefore
  returns the committed state; pending intermediate states are plain
  local values that are dropped on the paths where the source returns
  without committing.
- Floating point confidence values are pass-through payload for every
  claim considered here; they are modelled as opaque naturals.
- The legacy dtr_logs mirror table and the free-form JSON payload column
  are not modelled: no claim observes them.
-/

namespace Vecbook

/-- Calendar date, mirroring the YYYY-MM-DD strings of the source. -/
structure Date where
  year : Nat
  month : Nat
  day : Nat
deriving DecidableEq, Repr

/-- Lexicographic order on dates; coincides with string comparison of the
zero-padded YYYY-MM-DD forms stored by the source. -/
def Date.ltb (a b : Date) : Bool :=
  if a.year ≠ b.year then decide (a.year < b.year)
  else if a.month ≠ b.month then decide (a.month < b.month)
  else decide (a.day < b.day)

/-- A wall-clock instant, standing for datetime.now() in the source. -/
structure Instant where
  date : Date
  timeSec : Nat
deriving DecidableEq, Repr

/-! Parsing of the caller-supplied event date and time.  The source calls
datetime.strptime(event_date ++ " " ++ event_time, "%Y-%m-%d %H:%M:%S").
CPython compiles that format string to a regular expression: %Y matches
exactly four digits, %m matches a 1-2 digit month of the shapes
1[0-2]|0[1-9]|[1-9], %d matches a 1-2 digit day of the shapes
3[01]|[12]d|0[1-9]|[1-9] or a space followed by a single digit 1-9, the
literal space of the format compiles to a run of one or more whitespace
characters, and %H, %M, %S match 1-2 digit fields of the shapes
2[0-3]|[0-1]d|d, [0-5]d|d and 6[0-1]|[0-5]d|d.  The whole input must be
consumed, and the datetime constructor then validates the calendar day
(with leap years) and rejects year 0 and the leap seconds 60-61 that the
%S shape admits; every failure raises the ValueError that
normalize_event_datetime catches.  The model below reproduces this
exactly over ASCII strings (the maximal-munch digit runs below are
equivalent to the alternations above, whose alternatives only ever
differ in how many digits they take ahead of a non-digit separator);
outside ASCII, CPython additionally accepts non-ASCII Unicode decimal
digits and whitespace, which the Char-level model does not enumerate, so
the theorem that quantifies over arbitrary strings through this parser
carries an ASCII hypothesis. -/

def isDigitChar (c : Char) : Bool := decide ('0' ≤ c) && decide (c ≤ '9')

def digitVal (c : Char) : Nat := c.toNat - 48

def digitsToNat (l : List Char) : Nat := l.foldl (fun a c => a * 10 + digitVal c) 0

/-- The ASCII characters matched by a whitespace class in a CPython
regular expression over str: 0x09-0x0d, 0x1c-0x1f and the space. -/
def isPyWhitespace (c : Char) : Bool :=
  ('\x09' ≤ c && c ≤ '\x0d') || ('\x1c' ≤ c && c ≤ '\x1f') || c = ' '

/-- Longest digit prefix of the input, with the rest. -/
def spanDigits (l : List Char) : List Char × List Char :=
  match l with
  | [] => ([], [])
  | c :: t =>
    if isDigitChar c then
      let r := spanDigits t
      (c :: r.1, r.2)
    else ([], l)

/-- Longest whitespace prefix of the input, with the rest. -/
def spanPyWhitespace (l : List Char) : List Char × List Char :=
  match l with
  | [] => ([], [])
  | c :: t =>
    if isPyWhitespace c then
      let r := spanPyWhitespace t
      (c :: r.1, r.2)
    else ([], l)

/-- Consume one expected literal character of the format. -/
def expectChar (c : Char) (l : List Char) : Option (List Char) :=
  match l with
  | x :: t => if x = c then some t else none
  | [] => none

/-- Consume the run of one or more whitespace characters that the literal
space of the format compiles to. -/
def expectSpaces (l : List Char) : Option (List Char) :=
  match spanPyWhitespace l with
  | ([], _) => none
  | (_ :: _, rest) => some rest

/-- A numeric strptime directive: a digit run of 1 to maxLen digits whose
value lies in [lo, hi]. -/
def parseField (maxLen lo hi : Nat) (l : List Char) : Option (Nat × List Char) :=
  match spanDigits l with
  | (ds, rest) =>
    if 1 ≤ ds.length ∧ ds.length ≤ maxLen ∧ lo ≤ digitsToNat ds ∧
        digitsToNat ds ≤ hi then
      some (digitsToNat ds, rest)
    else
      none

/-- The %d directive: 1-2 digits, or the space-padded form of a single
digit 1-9 (the pad is the literal space character only). -/
def parseDayField (l : List Char) : Option (Nat × List Char) :=
  match l with
  | ' ' :: t =>
    match spanDigits t with
    | (ds, rest) =>
      if ds.length = 1 ∧ 1 ≤ digitsToNat ds then some (digitsToNat ds, rest)
      else none
  | _ =>
    match spanDigits l with
    | (ds, rest) =>
      if 1 ≤ ds.length ∧ ds.length ≤ 2 ∧ 1 ≤ digitsToNat ds ∧
          digitsToNat ds ≤ 31 then
        some (digitsToNat ds, rest)
      else none

def isLeapYear (y : Nat) : Bool :=
  decide (y % 4 = 0) && (decide (y % 100 ≠ 0) || decide (y % 400 = 0))

def daysInMonth (y m : Nat) : Nat :=
  if m = 2 then (if isLeapYear y then 29 else 28)
  else if m = 4 ∨ m = 6 ∨ m = 9 ∨ m = 11 then 30
  else 31

/-- Match the full %Y-%m-%d %H:%M:%S format against a character list,
requiring the whole input consumed, then apply the validation of the
datetime constructor: year at least 1, day within the month, seconds
below 60. -/
def parseEventDatetimeChars (l : List Char) : Option (Date × Nat) :=
  match spanDigits l with
  | (yds, l1) =>
    if yds.length = 4 then
      (expectChar '-' l1).bind fun l2 =>
      (parseField 2 1 12 l2).bind fun mr =>
      (expectChar '-' mr.2).bind fun l4 =>
      (parseDayField l4).bind fun dr =>
      (expectSpaces dr.2).bind fun l6 =>
      (parseField 2 0 23 l6).bind fun hr =>
      (expectChar ':' hr.2).bind fun l8 =>
      (parseField 2 0 59 l8).bind fun mir =>
      (expectChar ':' mir.2).bind fun l10 =>
      (parseField 2 0 59 l10).bind fun sr =>
      if sr.2 = [] ∧ 1 ≤ digitsToNat yds ∧
          dr.1 ≤ daysInMonth (digitsToNat yds) mr.1 then
        some (⟨digitsToNat yds, mr.1, dr.1⟩, hr.1 * 3600 + mir.1 * 60 + sr.1)
      else
        none
    else
      none

/-- Parse the combined "event_date event_time" string against the
"%Y-%m-%d %H:%M:%S" format, as datetime.strptime does in
normalize_event_datetime. -/
def parseEventDatetime (eventDate eventTime : String) : Option (Date × Nat) :=
  parseEventDatetimeChars (eventDate ++ " " ++ eventTime).data

/-- Mirrors normalize_event_datetime: a pair that fails to parse is
silently replaced by the current wall clock. -/
def normalize_event_datetime (eventDate eventTime : String) (now : Instant) :
    Date × Nat :=
  (parseEventDatetime eventDate eventTime).getD (now.date, now.timeSec)

/-! String normalisation used for the reject reason:
(reason or "").strip().lower() in the source.  Python strips unicode
whitespace and lowercases unicode; the values compared against are plain
ASCII keywords, modelled with ASCII strip and lower. -/

def asciiLower (c : Char) : Char :=
  if 'A' ≤ c ∧ c ≤ 'Z' then Char.ofNat (c.toNat + 32) else c

def strLower (s : String) : String := ⟨s.data.map asciiLower⟩

def strStrip (s : String) : String :=
  ⟨((s.data.dropWhile Char.isWhitespace).reverse.dropWhile Char.isWhitespace).reverse⟩

/-! Configuration, from src/backend/config.py.  All values are
environment-tunable; defaultConfig holds the shipped defaults. -/

structure AttendanceConfig where
  amStart : Nat
  amEnd : Nat
  pmStart : Nat
  pmEnd : Nat
  graceMinutes : Nat
  autoCloseCutoff : Nat
  absenceCutoff : Nat
  duplicateCooldownSeconds : Nat
deriving DecidableEq, Repr

/-- Shipped defaults: AM 05:00-12:00, PM 13:00-19:00, grace 10 minutes,
auto-close cutoff = PM end, absence cutoff 23:59, duplicate cooldown 60s. -/
def defaultConfig : AttendanceConfig :=
  ⟨5 * 3600, 12 * 3600, 13 * 3600, 19 * 3600, 10, 19 * 3600, 23 * 3600 + 59 * 60, 60⟩

/-- The configuration used by the worked examples of the specification:
AM window 07:30-12:00, lunch 12:00-13:00, PM window 13:00-19:00. -/
def scenarioConfig : AttendanceConfig :=
  ⟨7 * 3600 + 30 * 60, 12 * 3600, 13 * 3600, 19 * 3600, 10, 19 * 3600,
    23 * 3600 + 59 * 60, 60⟩

/-- Well-formedness of a configuration (section 4.1 of the spec treats a
malformed schedule as fatal at startup): the windows are ordered and the
duplicate cooldown is active. -/
def AttendanceConfig.Valid (cfg : AttendanceConfig) : Prop :=
  cfg.amStart ≤ cfg.amEnd ∧ cfg.amEnd ≤ cfg.pmStart ∧ cfg.pmStart ≤ cfg.pmEnd ∧
    0 < cfg.duplicateCooldownSeconds

instance (cfg : AttendanceConfig) : Decidable cfg.Valid := by
  unfold AttendanceConfig.Valid
  infer_instance

/-! Pure schedule helpers, one per source function. -/

/-- in_am_window: AM_START <= t < AM_END. -/
def in_am_window (cfg : AttendanceConfig) (t : Nat) : Bool :=
  decide (cfg.amStart ≤ t) && decide (t < cfg.amEnd)

/-- in_pm_window: PM_START <= t < PM_END. -/
def in_pm_window (cfg : AttendanceConfig) (t : Nat) : Bool :=
  decide (cfg.pmStart ≤ t) && decide (t < cfg.pmEnd)

/-- is_lunch_break: AM_END <= t < PM_START. -/
def is_lunch_break (cfg : AttendanceConfig) (t : Nat) : Bool :=
  decide (cfg.amEnd ≤ t) && decide (t < cfg.pmStart)

/-- add_minutes_to_time: the source adds a timedelta to a datetime anchored
on a fixed date and keeps only the clock time, so the result wraps at
midnight. -/
def add_minutes_to_time (base minutes : Nat) : Nat :=
  (base + 60 * minutes) % 86400

/-- minutes_between_clock_times: floor minutes between two stored clock
times, clamped below at 0 (max(0, floor((end - start)/60)) in the source,
which on Nat is truncated subtraction followed by division). -/
def minutes_between_clock_times (startTime endTime : Option Nat) : Option Nat :=
  match startTime, endTime with
  | some a, some b => some ((b - a) / 60)
  | _, _ => none

/-- shift_start_for_scan: PM start inside the PM window, AM start otherwise. -/
def shift_start_for_scan (cfg : AttendanceConfig) (t : Nat) : Nat :=
  if in_pm_window cfg t then cfg.pmStart else cfg.amStart

/-- scheduled_minutes. -/
def scheduled_minutes (schedStart schedEnd : Option Nat) : Option Nat :=
  minutes_between_clock_times schedStart schedEnd

/-- compute_work_and_undertime. -/
def compute_work_and_undertime (timeIn timeOut schedStart schedEnd : Option Nat) :
    Option Nat × Option Nat :=
  match minutes_between_clock_times timeIn timeOut with
  | none => (none, none)
  | some w =>
    match scheduled_minutes schedStart schedEnd with
    | none => (some w, none)
    | some sched => (some w, some (sched - w))

/-- seconds_between_same_day: signed seconds from one stored clock time to
another on the same calendar day.  Stored times written by the modelled
operations always parse, so the None branch of the source cannot arise. -/
def seconds_between_same_day (startT endT : Nat) : Int :=
  (endT : Int) - (startT : Int)

/-! Data model: the attendance_daily and scan_events tables, the roster
(teachers table, only the ids matter here), and the API result record. -/

/-- AttendanceStatus: the closed set of strings accepted by
coerce_attendance_status. -/
inductive AttendanceStatus where
  | present
  | late
  | absent
  | outsideHours
  | autoClosed
deriving DecidableEq, Repr

/-- DecisionCode: the 13 decision codes of the v2 engine. -/
inductive DecisionCode where
  | timeInSet
  | timeOutSet
  | autoClosedSet
  | absenceMarked
  | outsideSchedule
  | outsideScheduleLunch
  | dayComplete
  | facePendingConfirmation
  | faceLowConfidence
  | faceNoMatch
  | unknownFaceNotEnrolled
  | duplicateIgnored
  | error
deriving DecidableEq, Repr

/-- DtrAction: "none" | "time_in" | "time_out". -/
inductive DtrAction where
  | noneAction
  | timeInAction
  | timeOutAction
deriving DecidableEq, Repr

/-- One attendance_daily row.  Clock times are seconds since midnight;
auto_closed_at and absence_marked_at are TIMESTAMP columns whose only
observed use is null vs non-null, modelled as Bool. -/
structure DayRecord where
  id : Nat
  teacherId : Nat
  date : Date
  timeIn : Option Nat
  timeOut : Option Nat
  status : Option AttendanceStatus
  remarks : Option String
  scanAttempts : Nat
  source : String
  scheduledStart : Option Nat
  scheduledEnd : Option Nat
  graceMinutes : Option Nat
  lateByMinutes : Option Nat
  workedMinutes : Option Nat
  undertimeMinutes : Option Nat
  autoClosedAt : Bool
  absenceMarkedAt : Bool
deriving DecidableEq, Repr

/-- One scan_events row (append-only audit ledger). -/
structure ScanEvent where
  id : Nat
  teacherId : Option Nat
  recognizedLabel : Option Nat
  confidence : Option Nat
  decisionCode : DecisionCode
  message : String
  eventDate : Date
  eventTime : Nat
  source : String
  sessionId : Option String
  requestId : Option String
  requiresReview : Bool
  errorCode : Option String
  dtrRecordId : Option Nat
deriving DecidableEq, Repr

/-- The committed database state: roster ids (in id order), the two v2
tables in rowid order, and the autoincrement counters. -/
structure DbState where
  teachers : List Nat
  records : List DayRecord
  events : List ScanEvent
  nextRecordId : Nat
  nextEventId : Nat
deriving DecidableEq, Repr

/-- AttendanceV2ScanResult, the API-ready payload returned by the engine. -/
structure ScanResult where
  verified : Bool
  logged : Bool
  decisionCode : DecisionCode
  message : String
  teacherId : Option Nat
  fullName : Option String
  department : Option String
  confidence : Option Nat
  dtrAction : DtrAction
  date : Date
  eventTime : Nat
  timeIn : Option Nat
  timeOut : Option Nat
  status : Option AttendanceStatus
  remarks : Option String
  lateByMinutes : Option Nat
  workedMinutes : Option Nat
  undertimeMinutes : Option Nat
  autoClosed : Bool
  scanEventId : Nat
  dtrRecordId : Option Nat
  scanAttemptsToday : Nat
  requiresAdminReview : Bool
  retryAfterSeconds : Option Int
  requestId : Option String
deriving DecidableEq, Repr

/-! Store operations. -/

/-- First attendance_daily row for (teacher_id, date), in rowid order. -/
def findDaily (s : DbState) (teacherId : Nat) (date : Date) : Option DayRecord :=
  s.records.find? (fun r => decide (r.teacherId = teacherId ∧ r.date = date))

/-- First attendance_daily row with the given rowid. -/
def findRecordById (records : List DayRecord) (i : Nat) : Option DayRecord :=
  records.find? (fun r => decide (r.id = i))

/-- UPDATE attendance_daily ... WHERE id = ?: rowids are unique, so the
update touches the first (only) matching row. -/
def updateRecordById (records : List DayRecord) (i : Nat)
    (f : DayRecord → DayRecord) : List DayRecord :=
  match records with
  | [] => []
  | r :: rs => if r.id = i then f r :: rs else r :: updateRecordById rs i f

/-- First scan_events row carrying the given request_id (rowid order,
matching the LIMIT 1 queries of the source). -/
def findEventByRequestId (events : List ScanEvent) (rid : String) :
    Option ScanEvent :=
  events.find? (fun e => decide (e.requestId = some rid))

/-- Payload of insert_scan_event_v2, before an id is assigned. -/
structure ScanEventData where
  teacherId : Option Nat
  recognizedLabel : Option Nat
  confidence : Option Nat
  decisionCode : DecisionCode
  message : String
  eventDate : Date
  eventTime : Nat
  source : String
  sessionId : Option String
  requestId : Option String
  requiresReview : Bool
  errorCode : Option String
  dtrRecordId : Option Nat
deriving DecidableEq, Repr

/-- insert_scan_event_v2: append the event and return its id; on the
unique-constraint violation for a duplicate request_id the source catches
IntegrityError and returns the id of the already-stored event instead of
appending. -/
def insert_scan_event_v2 (e : ScanEventData) (s : DbState) : Nat × DbState :=
  match e.requestId with
  | some rid =>
    match findEventByRequestId s.events rid with
    | some existing => (existing.id, s)
    | none =>
      (s.nextEventId,
        { s with
          events := s.events ++
            [⟨s.nextEventId, e.teacherId, e.recognizedLabel, e.confidence,
              e.decisionCode, e.message, e.eventDate, e.eventTime, e.source,
              e.sessionId, e.requestId, e.requiresReview, e.errorCode,
              e.dtrRecordId⟩]
          nextEventId := s.nextEventId + 1 })
  | none =>
    (s.nextEventId,
      { s with
        events := s.events ++
          [⟨s.nextEventId, e.teacherId, e.recognizedLabel, e.confidence,
            e.decisionCode, e.message, e.eventDate, e.eventTime, e.source,
            e.sessionId, e.requestId, e.requiresReview, e.errorCode,
            e.dtrRecordId⟩]
        nextEventId := s.nextEventId + 1 })

/-- count_scan_attempts: COUNT of scan_events rows for (teacher_id, date). -/
def count_scan_attempts (s : DbState) (teacherId : Nat) (date : Date) : Nat :=
  (s.events.filter
    (fun e => decide (e.teacherId = some teacherId ∧ e.eventDate = date))).length

/-- SQL COALESCE over two nullable values. -/
def coalesce {α : Type} (a b : Option α) : Option α :=
  match a with
  | some x => some x
  | none => b

/-! Zero-padded formatting, used only to synthesise the request_id strings
of the maintenance sweeps (strftime in the source). -/

def digitChar (n : Nat) : Char := Char.ofNat (48 + n)

def pad2 (n : Nat) : String := ⟨[digitChar (n / 10 % 10), digitChar (n % 10)]⟩

def pad4 (n : Nat) : String :=
  ⟨[digitChar (n / 1000 % 10), digitChar (n / 100 % 10), digitChar (n / 10 % 10),
    digitChar (n % 10)]⟩

def fmtDate (d : Date) : String :=
  pad4 d.year ++ "-" ++ pad2 d.month ++ "-" ++ pad2 d.day

def fmtHms (t : Nat) : String :=
  pad2 (t / 3600) ++ ":" ++ pad2 (t % 3600 / 60) ++ ":" ++ pad2 (t % 60)

/-- Decimal digits of n, least significant first; the fuel argument is a
structural bound on the number of digits. -/
def natToRevDigits : Nat → Nat → List Char
  | 0, _ => []
  | fuel + 1, n => if n = 0 then [] else digitChar (n % 10) :: natToRevDigits fuel (n / 10)

def natToString (n : Nat) : String :=
  if n = 0 then "0" else ⟨(natToRevDigits (n + 1) n).reverse⟩

/-! get_or_create_attendance_daily_v2.  The base column defaults of the new
row come from the v2 migration DDL (database/migrations/001_attendance_v2.sql,
referenced but not part of the sources); only defaults that the engine ever
observes matter: late_by_minutes defaults to 0 (as in the retrofit column
list of ensure_attendance_v2_columns), the time and audit columns default
to NULL, and a NULL status is coerced to Absent wherever the engine reads
it, so status is modelled as NULL on creation. -/

/-- Return the existing attendance_daily id for (teacher_id, date) or
create the row.  For an existing row whose stored schedule differs from
the supplied defaults, only NULL fields are filled in (COALESCE): stored
non-NULL schedule values are never overwritten. -/
def get_or_create_attendance_daily_v2 (cfg : AttendanceConfig) (teacherId : Nat)
    (date : Date) (source : String) (scheduledStart scheduledEnd : Option Nat)
    (graceMinutes : Option Nat) (s : DbState) : Nat × DbState :=
  let defaultStart := scheduledStart.getD cfg.amStart
  let defaultEnd := scheduledEnd.getD cfg.pmEnd
  let defaultGrace := graceMinutes.getD cfg.graceMinutes
  match findDaily s teacherId date with
  | some r =>
    if r.scheduledStart ≠ some defaultStart ∨ r.scheduledEnd ≠ some defaultEnd ∨
        r.graceMinutes ≠ some defaultGrace then
      (r.id,
        { s with
          records := updateRecordById s.records r.id (fun row =>
            { row with
              scheduledStart := some (row.scheduledStart.getD defaultStart)
              scheduledEnd := some (row.scheduledEnd.getD defaultEnd)
              graceMinutes := some (row.graceMinutes.getD defaultGrace) }) })
    else
      (r.id, s)
  | none =>
    (s.nextRecordId,
      { s with
        records := s.records ++
          [⟨s.nextRecordId, teacherId, date, none, none, none, none, 0, source,
            some defaultStart, some defaultEnd, some defaultGrace, some 0, none,
            none, false, false⟩]
        nextRecordId := s.nextRecordId + 1 })

/-! The maintenance sweeper. -/

/-- Selection predicate of the auto-close pass: time_in set, time_out
unset, and the day is past or today at/after the auto-close cutoff. -/
def autoCloseMatches (cfg : AttendanceConfig) (now : Instant) (r : DayRecord) :
    Bool :=
  r.timeIn.isSome && r.timeOut.isNone &&
    (Date.ltb r.date now.date ||
      (decide (r.date = now.date) && decide (cfg.autoCloseCutoff ≤ now.timeSec)))

def autoCloseRemark (cfg : AttendanceConfig) : String :=
  "Auto-closed at cutoff " ++ fmtHms cfg.autoCloseCutoff ++ "."

/-- The UPDATE applied to one auto-closed row. -/
def autoCloseRecordUpdate (cfg : AttendanceConfig) (r : DayRecord) : DayRecord :=
  let finalTimeOut := r.scheduledEnd.getD cfg.pmEnd
  let wu := compute_work_and_undertime r.timeIn (some finalTimeOut)
    r.scheduledStart r.scheduledEnd
  { r with
    timeOut := some finalTimeOut
    status := some .autoClosed
    remarks := some (autoCloseRemark cfg)
    workedMinutes := coalesce wu.1 r.workedMinutes
    undertimeMinutes := coalesce wu.2 r.undertimeMinutes
    autoClosedAt := true
    source := "SystemAutoClose" }

/-- The idempotency key of the auto-close ledger entry for one row. -/
def autoCloseRequestId (cfg : AttendanceConfig) (r : DayRecord) : String :=
  "auto_close:" ++ fmtDate r.date ++ ":" ++ natToString r.teacherId ++ ":"
    ++ fmtHms (r.scheduledEnd.getD cfg.pmEnd)

/-- The AUTO_CLOSED_SET ledger entry for one auto-closed row. -/
def autoCloseEvent (cfg : AttendanceConfig) (now : Instant) (r : DayRecord) :
    ScanEventData :=
  ⟨some r.teacherId, some r.teacherId, none, .autoClosedSet, autoCloseRemark cfg,
    r.date, now.timeSec, "SystemAutoClose", none,
    some (autoCloseRequestId cfg r),
    true, none, some r.id⟩

/-- The stored row of a pending ledger entry, given the assigned id. -/
def realizeEvent (e : ScanEventData) (i : Nat) : ScanEvent :=
  ⟨i, e.teacherId, e.recognizedLabel, e.confidence, e.decisionCode, e.message,
    e.eventDate, e.eventTime, e.source, e.sessionId, e.requestId,
    e.requiresReview, e.errorCode, e.dtrRecordId⟩

/-- The stored rows of a batch of pending ledger entries inserted in order
starting from the given id. -/
def realizeEvents (i : Nat) (es : List ScanEventData) : List ScanEvent :=
  match es with
  | [] => []
  | e :: tl => realizeEvent e i :: realizeEvents (i + 1) tl

/-- apply_auto_close_maintenance: close every matching row and append one
AUTO_CLOSED_SET ledger entry per closed row; returns the number of rows
changed.  The source selects all matching rows first and then updates and
inserts per row; updates touch only attendance_daily and inserts only
scan_events, so performing all updates and then all inserts is the same
state transformation. -/
def apply_auto_close_maintenance (cfg : AttendanceConfig) (now : Instant)
    (s : DbState) : DbState × Nat :=
  let rows := s.records.filter (autoCloseMatches cfg now)
  let records := s.records.map
    (fun r => if autoCloseMatches cfg now r then autoCloseRecordUpdate cfg r else r)
  let s1 := rows.foldl
    (fun acc r => (insert_scan_event_v2 (autoCloseEvent cfg now r) acc).2)
    { s with records := records }
  (s1, rows.length)

def absenceRemark : String := "No valid time-in before absence cutoff."

/-- The Absent row inserted by the absence pass for one roster member. -/
def absenceRecord (cfg : AttendanceConfig) (recordId teacherId : Nat)
    (date : Date) : DayRecord :=
  ⟨recordId, teacherId, date, none, none, some .absent, some absenceRemark, 0,
    "SystemAbsence", some cfg.amStart, some cfg.pmEnd, some cfg.graceMinutes,
    some 0, some 0, scheduled_minutes (some cfg.amStart) (some cfg.pmEnd),
    false, true⟩

/-- The ABSENCE_MARKED ledger entry for one roster member. -/
def absenceEvent (cfg : AttendanceConfig) (recordId teacherId : Nat)
    (date : Date) : ScanEventData :=
  ⟨some teacherId, some teacherId, none, .absenceMarked, absenceRemark, date,
    cfg.absenceCutoff, "SystemAbsence", none,
    some ("absence_marked:" ++ fmtDate date ++ ":" ++ natToString teacherId),
    true, none, some recordId⟩

/-- apply_absence_maintenance: once past the absence cutoff, every roster
member without a row for today gets an Absent row plus an ABSENCE_MARKED
ledger entry.  The roster list is kept in ascending id order, matching the
ORDER BY t.id ASC of the source query. -/
def apply_absence_maintenance (cfg : AttendanceConfig) (now : Instant)
    (s : DbState) : DbState × Nat :=
  if now.timeSec < cfg.absenceCutoff then
    (s, 0)
  else
    let targetDate := now.date
    let missing := s.teachers.filter (fun tid => (findDaily s tid targetDate).isNone)
    let s1 := missing.foldl
      (fun acc tid =>
        let recId := acc.nextRecordId
        let acc1 := { acc with
          records := acc.records ++ [absenceRecord cfg recId tid targetDate]
          nextRecordId := acc.nextRecordId + 1 }
        (insert_scan_event_v2 (absenceEvent cfg recId tid targetDate) acc1).2)
      s
    (s1, missing.length)

/-- run_attendance_maintenance_v2: auto-close pass then absence pass. -/
def run_attendance_maintenance_v2 (cfg : AttendanceConfig) (now : Instant)
    (s : DbState) : DbState :=
  (apply_absence_maintenance cfg now (apply_auto_close_maintenance cfg now s).1).1

/-! Decision metadata helpers. -/

/-- decision_logged. -/
def decision_logged (c : DecisionCode) : Bool :=
  match c with
  | .timeInSet | .timeOutSet => true
  | _ => false

/-- decision_verified. -/
def decision_verified (c : DecisionCode) : Bool :=
  match c with
  | .facePendingConfirmation | .faceLowConfidence | .faceNoMatch
  | .unknownFaceNotEnrolled | .error => false
  | _ => true

/-- The dtr_action echoed on idempotent replay. -/
def replayDtrAction (c : DecisionCode) : DtrAction :=
  match c with
  | .timeInSet => .timeInAction
  | .timeOutSet => .timeOutAction
  | _ => .noneAction

/-- result_from_existing_request: rebuild a result from the stored event
with the given request_id, joined with the current day record it points
to.  Decision codes are typed in this model, so the fallback of the source
that maps an unknown stored code string to ERROR cannot arise. -/
def result_from_existing_request (s : DbState) (rid : String)
    (fullName department : Option String) : Option ScanResult :=
  match findEventByRequestId s.events rid with
  | none => none
  | some ev =>
    let r? := ev.dtrRecordId.bind (findRecordById s.records)
    some
      { verified := decision_verified ev.decisionCode
        logged := decision_logged ev.decisionCode
        decisionCode := ev.decisionCode
        message := ev.message
        teacherId := ev.teacherId
        fullName := fullName
        department := department
        confidence := ev.confidence
        dtrAction := replayDtrAction ev.decisionCode
        date := ev.eventDate
        eventTime := ev.eventTime
        timeIn := r?.bind (·.timeIn)
        timeOut := r?.bind (·.timeOut)
        status := r?.bind (·.status)
        remarks := r?.bind (·.remarks)
        lateByMinutes := r?.bind (·.lateByMinutes)
        workedMinutes := r?.bind (·.workedMinutes)
        undertimeMinutes := r?.bind (·.undertimeMinutes)
        autoClosed := r?.elim false (·.autoClosedAt)
        scanEventId := ev.id
        dtrRecordId := ev.dtrRecordId
        scanAttemptsToday := (r?.map (·.scanAttempts)).getD 0
        requiresAdminReview := ev.requiresReview
        retryAfterSeconds := none
        requestId := some rid }

/-- time_in_status: Present while at or before scheduledStart + grace,
else Late with minutes from scheduledStart to the scan. -/
def time_in_status (scanTime schedStart graceMinutes : Nat) :
    AttendanceStatus × Nat :=
  let graceDeadline := add_minutes_to_time schedStart graceMinutes
  if scanTime ≤ graceDeadline then
    (.present, 0)
  else
    (.late, (minutes_between_clock_times (some schedStart) (some scanTime)).getD 0)

/-- Outcome of the roster-hit branch block of process_attendance_scan_v2
(the if/elif ladder over the loaded day record): the decision metadata,
the post-branch values of the local variables that later feed the result
fallbacks, and the UPDATE applied to the day record, if any. -/
structure BranchOutcome where
  decision : DecisionCode
  message : String
  logged : Bool
  dtrAction : DtrAction
  requiresAdminReview : Bool
  retryAfterSeconds : Option Int
  remarksLocal : Option String
  lateByLocal : Nat
  workedLocal : Option Nat
  undertimeLocal : Option Nat
  update : Option (DayRecord → DayRecord)

/-- The roster-hit branch block: mirrors the load of the day record (with
the per-field NULL fallbacks of the source) followed by the decision
ladder.  src is the scan source string and t the scan clock time; the
loaded row is r? (None only if the row vanished, which the source also
tolerates). -/
def roster_branch (cfg : AttendanceConfig) (src : String) (t : Nat)
    (r? : Option DayRecord) : BranchOutcome :=
  let timeIn := r?.bind (·.timeIn)
  let timeOut := r?.bind (·.timeOut)
  let status : AttendanceStatus := (r?.bind (·.status)).getD .absent
  let remarks := r?.bind (·.remarks)
  let schedStart := (r?.bind (·.scheduledStart)).getD (shift_start_for_scan cfg t)
  let schedEnd := (r?.bind (·.scheduledEnd)).getD cfg.pmEnd
  let grace := (r?.bind (·.graceMinutes)).getD cfg.graceMinutes
  let lateBy := (r?.bind (·.lateByMinutes)).getD 0
  let worked := r?.bind (·.workedMinutes)
  let undertime := r?.bind (·.undertimeMinutes)
  let absenceMarked := r?.elim false (·.absenceMarkedAt)
  let inWorkingHours := in_am_window cfg t || in_pm_window cfg t
  if timeIn.isSome && timeOut.isSome then
    { decision := .dayComplete
      message := "Attendance already complete for this day."
      logged := false, dtrAction := .noneAction, requiresAdminReview := false
      retryAfterSeconds := none
      remarksLocal := some "Attendance already complete."
      lateByLocal := lateBy, workedLocal := worked, undertimeLocal := undertime
      update := none }
  else if !inWorkingHours then
    let canOutsideTimeout := timeIn.isSome && timeOut.isNone && decide (schedEnd ≤ t)
    if canOutsideTimeout then
      let elapsed := seconds_between_same_day (timeIn.getD 0) t
      if 0 < cfg.duplicateCooldownSeconds ∧
          elapsed < (cfg.duplicateCooldownSeconds : Int) then
        { decision := .duplicateIgnored
          message := "Duplicate scan ignored; too soon after time-in."
          logged := false, dtrAction := .noneAction, requiresAdminReview := false
          retryAfterSeconds := some ((cfg.duplicateCooldownSeconds : Int) - elapsed)
          remarksLocal := remarks
          lateByLocal := lateBy, workedLocal := worked, undertimeLocal := undertime
          update := none }
      else
        let wu := compute_work_and_undertime timeIn (some t) (some schedStart)
          (some schedEnd)
        let status2 := if status = .present ∨ status = .late then status else .present
        { decision := .timeOutSet
          message := "Time-out recorded outside shift hours."
          logged := true, dtrAction := .timeOutAction, requiresAdminReview := true
          retryAfterSeconds := none
          remarksLocal := some "Time-out recorded outside shift hours."
          lateByLocal := lateBy, workedLocal := wu.1, undertimeLocal := wu.2
          update := some (fun r =>
            { r with
              timeOut := some t, status := some status2
              remarks := some "Time-out recorded outside shift hours."
              source := src
              workedMinutes := coalesce wu.1 r.workedMinutes
              undertimeMinutes := coalesce wu.2 r.undertimeMinutes }) }
    else
      let isLunch := is_lunch_break cfg t
      let msg := if isLunch then "Scan is during lunch break."
        else "Scan is outside shift hours."
      let code := if isLunch then DecisionCode.outsideScheduleLunch
        else DecisionCode.outsideSchedule
      let nextStatus :=
        if timeIn.isNone && timeOut.isNone then
          (if status = .absent ∧ absenceMarked then AttendanceStatus.absent
            else AttendanceStatus.outsideHours)
        else status
      { decision := code, message := msg
        logged := false, dtrAction := .noneAction, requiresAdminReview := true
        retryAfterSeconds := none
        remarksLocal := some msg
        lateByLocal := lateBy, workedLocal := worked, undertimeLocal := undertime
        update := some (fun r =>
          { r with status := some nextStatus, remarks := some msg, source := src }) }
  else if timeIn.isNone then
    let st := time_in_status t schedStart grace
    { decision := .timeInSet, message := "Time-in recorded."
      logged := true, dtrAction := .timeInAction, requiresAdminReview := false
      retryAfterSeconds := none
      remarksLocal := none
      lateByLocal := st.2, workedLocal := worked, undertimeLocal := undertime
      update := some (fun r =>
        { r with
          timeIn := some t, status := some st.1, remarks := none, source := src
          lateByMinutes := some st.2, workedMinutes := none
          undertimeMinutes := none, autoClosedAt := false }) }
  else if timeOut.isNone then
    let elapsed := seconds_between_same_day (timeIn.getD 0) t
    if 0 < cfg.duplicateCooldownSeconds ∧
        elapsed < (cfg.duplicateCooldownSeconds : Int) then
      { decision := .duplicateIgnored
        message := "Duplicate scan ignored; too soon after time-in."
        logged := false, dtrAction := .noneAction, requiresAdminReview := false
        retryAfterSeconds := some ((cfg.duplicateCooldownSeconds : Int) - elapsed)
        remarksLocal := remarks
        lateByLocal := lateBy, workedLocal := worked, undertimeLocal := undertime
        update := none }
    else
      let wu := compute_work_and_undertime timeIn (some t) (some schedStart)
        (some schedEnd)
      let status2 := if status = .present ∨ status = .late then status else .present
      { decision := .timeOutSet, message := "Time-out recorded."
        logged := true, dtrAction := .timeOutAction, requiresAdminReview := false
        retryAfterSeconds := none
        remarksLocal := none
        lateByLocal := lateBy, workedLocal := wu.1, undertimeLocal := wu.2
        update := some (fun r =>
          { r with
            timeOut := some t, status := some status2, remarks := none
            source := src
            workedMinutes := coalesce wu.1 r.workedMinutes
            undertimeMinutes := coalesce wu.2 r.undertimeMinutes }) }
  else
    { decision := .dayComplete
      message := "Attendance already complete for this day."
      logged := false, dtrAction := .noneAction, requiresAdminReview := false
      retryAfterSeconds := none
      remarksLocal := some "Attendance already complete."
      lateByLocal := lateBy, workedLocal := worked, undertimeLocal := undertime
      update := none }

/-- The caller-supplied arguments of process_attendance_scan_v2. -/
structure ScanInput where
  teacherId : Option Nat
  fullName : Option String
  department : Option String
  confidence : Option Nat
  scanVerified : Bool
  reason : Option String
  eventDate : String
  eventTime : String
  source : String
  sessionId : Option String
  requestId : Option String

/-- The idempotent-replay lookup of process_attendance_scan_v2: performed
against the pending connection state (maintenance included), only when a
request_id was supplied. -/
def replay_lookup (cfg : AttendanceConfig) (now : Instant) (inp : ScanInput)
    (s : DbState) : Option ScanResult :=
  match inp.requestId with
  | some rid =>
    result_from_existing_request (run_attendance_maintenance_v2 cfg now s) rid
      inp.fullName inp.department
  | none => none

/-- The roster-hit tail of process_attendance_scan_v2 (steps 4-7 of the
spec): load-or-create the day record, apply the branch ladder, append the
ledger event, recompute scan_attempts, re-read and build the result.
committed is the state as of the last commit (for rollback), pending the
state of the open transaction (maintenance applied). -/
def roster_hit_path (cfg : AttendanceConfig) (inp : ScanInput)
    (eventDate : Date) (eventTimeSec : Nat) (reasonKey : String)
    (ledgerFault errorLedgerFault : Bool) (committed pending : DbState)
    (tid : Nat) : ScanResult × DbState :=
  let ssHms := shift_start_for_scan cfg eventTimeSec
  let goc := get_or_create_attendance_daily_v2 cfg tid eventDate inp.source
    (some ssHms) (some cfg.pmEnd) (some cfg.graceMinutes) pending
  let recId := goc.1
  let s2 := goc.2
  let r? := findRecordById s2.records recId
  let b := roster_branch cfg inp.source eventTimeSec r?
  if ledgerFault then
    let errMsg := "Attendance scan processing failed: unexpected error."
    let errResult (eid : Nat) : ScanResult :=
      { verified := false, logged := false, decisionCode := .error
        message := errMsg, teacherId := inp.teacherId
        fullName := inp.fullName, department := inp.department
        confidence := inp.confidence, dtrAction := .noneAction
        date := eventDate, eventTime := eventTimeSec
        timeIn := none, timeOut := none, status := none
        remarks := if reasonKey = "" then none else some reasonKey
        lateByMinutes := none, workedMinutes := none
        undertimeMinutes := none, autoClosed := false, scanEventId := eid
        dtrRecordId := some recId, scanAttemptsToday := 0
        requiresAdminReview := true, retryAfterSeconds := none
        requestId := inp.requestId }
    if errorLedgerFault then
      (errResult 0, committed)
    else
      let insE := insert_scan_event_v2
        ⟨none, inp.teacherId, inp.confidence, .error, errMsg, eventDate,
          eventTimeSec, inp.source, inp.sessionId, inp.requestId, true,
          some "Exception", none⟩
        committed
      (errResult insE.1, insE.2)
  else
    let s3 :=
      match b.update with
      | some f => { s2 with records := updateRecordById s2.records recId f }
      | none => s2
    let ins := insert_scan_event_v2
      ⟨some tid, inp.teacherId, inp.confidence, b.decision, b.message,
        eventDate, eventTimeSec, inp.source, inp.sessionId, inp.requestId,
        b.requiresAdminReview, none, some recId⟩
      s3
    let s4 := ins.2
    let attempts := count_scan_attempts s4 tid eventDate
    let s5 := { s4 with
      records := updateRecordById s4.records recId
        (fun r => { r with scanAttempts := attempts }) }
    let r2? := findRecordById s5.records recId
    ({ verified := true, logged := b.logged, decisionCode := b.decision
       message := b.message, teacherId := some tid
       fullName := inp.fullName, department := inp.department
       confidence := inp.confidence, dtrAction := b.dtrAction
       date := eventDate, eventTime := eventTimeSec
       timeIn := r2?.bind (·.timeIn), timeOut := r2?.bind (·.timeOut)
       status := r2?.bind (·.status)
       remarks := coalesce (r2?.bind (·.remarks)) b.remarksLocal
       lateByMinutes := some ((r2?.bind (·.lateByMinutes)).getD b.lateByLocal)
       workedMinutes := coalesce (r2?.bind (·.workedMinutes)) b.workedLocal
       undertimeMinutes :=
         coalesce (r2?.bind (·.undertimeMinutes)) b.undertimeLocal
       autoClosed := r2?.elim false (·.autoClosedAt), scanEventId := ins.1
       dtrRecordId := some recId, scanAttemptsToday := attempts
       requiresAdminReview := b.requiresAdminReview
       retryAfterSeconds := b.retryAfterSeconds
       requestId := inp.requestId }, s5)

/-- The main v2 attendance state machine, for the deployed configuration
in which the engine owns its sqlite connection (the HTTP layer calls it
with conn=None).  now stands for datetime.now().

The two fault flags make the exception nondeterminism of the source
explicit: ledgerFault models an unexpected exception raised inside the
try block of the roster-hit path at the ledger append (after the day
record was mutated), and errorLedgerFault models the ERROR-event insert
of the exception handler itself failing (the source swallows that second
failure and reports scan_event_id 0).

Transaction discipline of the deferred-mode sqlite3 connection:

- the maintenance pass runs first and stays pending (it is invoked with
  the engine connection, so it does not commit);
- the idempotent-replay path returns without commit, so its pending
  maintenance writes are discarded when the owned connection closes: the
  committed state is the input state unchanged;
- the non-replay paths commit before returning, making the pending writes
  (maintenance included) the new committed state;
- the exception handler rolls the pending transaction back to the input
  state and then commits just the ERROR ledger event. -/
def process_attendance_scan_v2 (cfg : AttendanceConfig) (now : Instant)
    (inp : ScanInput) (ledgerFault errorLedgerFault : Bool) (s : DbState) :
    ScanResult × DbState :=
  let maintPending := run_attendance_maintenance_v2 cfg now s
  let norm := normalize_event_datetime inp.eventDate inp.eventTime now
  let eventDate := norm.1
  let eventTimeSec := norm.2
  let reasonKey := strLower (strStrip (inp.reason.getD ""))
  let messageReason := if reasonKey = "" then "no_match" else reasonKey
  match replay_lookup cfg now inp s with
  | some existing => (existing, s)
  | none =>
    let teacherExists :=
      match inp.teacherId with
      | some tid => maintPending.teachers.contains tid
      | none => false
    if inp.scanVerified = false then
      let safeTid0 := if teacherExists then inp.teacherId else none
      let classified : DecisionCode × String × Option Nat × Bool :=
        if reasonKey = "pending_confirmation" then
          (.facePendingConfirmation,
            "Face match pending additional confirmations.", safeTid0, false)
        else if reasonKey = "low_confidence" then
          (.faceLowConfidence,
            "Face match confidence is below strict threshold.", safeTid0, false)
        else if reasonKey = "unknown_face" then
          (.unknownFaceNotEnrolled,
            "Face was recognized but the teacher is not enrolled.", none, true)
        else
          (.faceNoMatch, "No face match: " ++ messageReason, safeTid0, false)
      let code := classified.1
      let msg := classified.2.1
      let safeTid := classified.2.2.1
      let review := classified.2.2.2
      let ins := insert_scan_event_v2
        ⟨safeTid, inp.teacherId, inp.confidence, code, msg, eventDate,
          eventTimeSec, inp.source, inp.sessionId, inp.requestId, review, none,
          none⟩
        maintPending
      let attempts :=
        match safeTid with
        | some tid => count_scan_attempts ins.2 tid eventDate
        | none => 0
      ({ verified := false, logged := false, decisionCode := code, message := msg
         teacherId := inp.teacherId, fullName := inp.fullName
         department := inp.department, confidence := inp.confidence
         dtrAction := .noneAction, date := eventDate, eventTime := eventTimeSec
         timeIn := none, timeOut := none, status := none
         remarks := if reasonKey = "" then none else some reasonKey
         lateByMinutes := none, workedMinutes := none, undertimeMinutes := none
         autoClosed := false, scanEventId := ins.1, dtrRecordId := none
         scanAttemptsToday := attempts, requiresAdminReview := review
         retryAfterSeconds := none, requestId := inp.requestId }, ins.2)
    else
      match inp.teacherId, teacherExists with
      | some tid, true =>
        roster_hit_path cfg inp eventDate eventTimeSec reasonKey ledgerFault
          errorLedgerFault s maintPending tid
      | _, _ =>
        let code := DecisionCode.unknownFaceNotEnrolled
        let msg := "Verified scan received for an unknown teacher."
        let ins := insert_scan_event_v2
          ⟨none, inp.teacherId, inp.confidence, code, msg, eventDate,
            eventTimeSec, inp.source, inp.sessionId, inp.requestId, true, none,
            none⟩
          maintPending
        ({ verified := false, logged := false, decisionCode := code
           message := msg, teacherId := inp.teacherId, fullName := inp.fullName
           department := inp.department, confidence := inp.confidence
           dtrAction := .noneAction, date := eventDate, eventTime := eventTimeSec
           timeIn := none, timeOut := none, status := none
           remarks := some "unknown_teacher"
           lateByMinutes := none, workedMinutes := none, undertimeMinutes := none
           autoClosed := false, scanEventId := ins.1, dtrRecordId := none
           scanAttemptsToday := 0, requiresAdminReview := true
           retryAfterSeconds := none, requestId := inp.requestId }, ins.2)

/-! Reachability and the day-record time invariant (claim C2). -/

/-- The per-record invariant: a set time_out implies a set time_in that is
not later (both are clock times of one and the same calendar day), plus
the two auxiliary facts that make the invariant inductive: any set
time_in precedes the configured PM end, and the stored scheduled_end of
every record written by these operations is the configured PM end. -/
def RecordTimeInv (cfg : AttendanceConfig) (r : DayRecord) : Prop :=
  (∀ o, r.timeOut = some o → ∃ i, r.timeIn = some i ∧ i ≤ o) ∧
    (∀ i, r.timeIn = some i → i < cfg.pmEnd) ∧
    r.scheduledEnd = some cfg.pmEnd

/-- All records of a state satisfy the per-record invariant. -/
def StateInv (cfg : AttendanceConfig) (s : DbState) : Prop :=
  ∀ r ∈ s.records, RecordTimeInv cfg r

/-- States reachable from an initial store (any roster, no day records,
no events) through Decision Engine invocations and Maintenance Sweeper
runs, at arbitrary wall clocks, inputs and fault injections. -/
inductive Reach (cfg : AttendanceConfig) : DbState → Prop where
  | init (teachers : List Nat) : Reach cfg ⟨teachers, [], [], 1, 1⟩
  | scan (now : Instant) (inp : ScanInput) (lf ef : Bool) {s : DbState} :
      Reach cfg s → Reach cfg (process_attendance_scan_v2 cfg now inp lf ef s).2
  | maint (now : Instant) {s : DbState} :
      Reach cfg s → Reach cfg (run_attendance_maintenance_v2 cfg now s)

/-! Concrete fixtures used by the example-level theorems: a single-teacher
roster on 2025-10-06, under the configuration of the worked examples. -/

def exDate : Date := ⟨2025, 10, 6⟩

/-- A day record with time_in 07:45:00 recorded and no time_out, as left
by the first scan of the worked example. -/
def exOpenRecord : DayRecord :=
  ⟨1, 1, exDate, some 27900, none, some .late, none, 1, "LiveFaceCapture",
    some 27000, some 68400, some 10, some 15, none, none, false, false⟩

/-- The stored ledger event of that first scan, carrying request id req-1. -/
def exStoredEvent : ScanEvent :=
  ⟨1, some 1, some 1, none, .timeInSet, "Time-in recorded.", exDate, 27900,
    "LiveFaceCapture", none, some "req-1", false, none, some 1⟩

def exEmptyState : DbState := ⟨[1], [], [], 1, 1⟩

def exOpenState : DbState := ⟨[1], [exOpenRecord], [], 2, 1⟩

/-- A completed day record (both time_in and time_out set). -/
def exCompleteRecord : DayRecord :=
  ⟨1, 1, exDate, some 27900, some 39600, some .late, none, 2, "LiveFaceCapture",
    some 27000, some 68400, some 10, some 15, some 195, some 480, false, false⟩

def exCompleteState : DbState := ⟨[1], [exCompleteRecord], [], 2, 1⟩

/-- The day record left by the absence sweeper under the default
configuration: no times, status Absent, schedule AM start / PM end. -/
def exAbsenceRecord : DayRecord := absenceRecord defaultConfig 1 1 exDate

def exAbsenceState : DbState := ⟨[1], [exAbsenceRecord], [], 2, 1⟩

def exReplayState : DbState := ⟨[1], [exOpenRecord], [exStoredEvent], 2, 2⟩

/-- A verified scan input for teacher 1 on 2025-10-06. -/
def exInput (eventTime : String) (requestId : Option String) : ScanInput :=
  ⟨some 1, none, none, none, true, none, "2025-10-06", eventTime,
    "LiveFaceCapture", none, requestId⟩

/-- A verified scan input for teacher 1 whose datetime fields do not parse
and whose request id matches the stored ledger event req-1. -/
def exMalformedInput : ScanInput :=
  ⟨some 1, none, none, none, true, none, "not-a-date", "junk",
    "LiveFaceCapture", none, some "req-1"⟩

/-! Store lemmas. -/

theorem insert_scan_event_snd (e : ScanEventData) (s : DbState) :
    ∃ t, (insert_scan_event_v2 e s).2 =
      { s with events := s.events ++ t, nextEventId := s.nextEventId + t.length } := by
  unfold insert_scan_event_v2
  rcases hrid : e.requestId with _ | rid
  · exact ⟨[⟨s.nextEventId, e.teacherId, e.recognizedLabel, e.confidence,
      e.decisionCode, e.message, e.eventDate, e.eventTime, e.source,
      e.sessionId, none, e.requiresReview, e.errorCode, e.dtrRecordId⟩], rfl⟩
  · dsimp only
    rcases hfind : findEventByRequestId s.events rid with _ | ev
    · simp only [hfind]
      exact ⟨[⟨s.nextEventId, e.teacherId, e.recognizedLabel, e.confidence,
        e.decisionCode, e.message, e.eventDate, e.eventTime, e.source,
        e.sessionId, some rid, e.requiresReview, e.errorCode, e.dtrRecordId⟩], rfl⟩
    · simp only [hfind]
      exact ⟨[], by cases s; simp⟩

theorem insert_scan_event_records (e : ScanEventData) (s : DbState) :
    ((insert_scan_event_v2 e s).2).records = s.records := by
  obtain ⟨t, ht⟩ := insert_scan_event_snd e s
  rw [ht]

theorem insert_scan_event_teachers (e : ScanEventData) (s : DbState) :
    ((insert_scan_event_v2 e s).2).teachers = s.teachers := by
  obtain ⟨t, ht⟩ := insert_scan_event_snd e s
  rw [ht]

theorem insert_scan_event_events_extend (e : ScanEventData) (s : DbState) :
    ∃ t, ((insert_scan_event_v2 e s).2).events = s.events ++ t := by
  obtain ⟨t, ht⟩ := insert_scan_event_snd e s
  exact ⟨t, by rw [ht]⟩

/-- Appending an event when the request id is fresh (or absent):
the plain-insert case of insert_scan_event_v2. -/
theorem insert_scan_event_of_fresh (e : ScanEventData) (s : DbState)
    (h : ∀ rid, e.requestId = some rid → findEventByRequestId s.events rid = none) :
    insert_scan_event_v2 e s =
      (s.nextEventId,
        { s with
          events := s.events ++
            [⟨s.nextEventId, e.teacherId, e.recognizedLabel, e.confidence,
              e.decisionCode, e.message, e.eventDate, e.eventTime, e.source,
              e.sessionId, e.requestId, e.requiresReview, e.errorCode,
              e.dtrRecordId⟩]
          nextEventId := s.nextEventId + 1 }) := by
  unfold insert_scan_event_v2
  rcases hrid : e.requestId with _ | rid
  · rfl
  · simp only [h rid hrid]

theorem findRecordById_cons_pos (a : DayRecord) (tl : List DayRecord) (i : Nat)
    (h : a.id = i) : findRecordById (a :: tl) i = some a := by
  unfold findRecordById
  exact List.find?_cons_of_pos _ (by simp [h])

theorem findRecordById_cons_neg (a : DayRecord) (tl : List DayRecord) (i : Nat)
    (h : ¬a.id = i) : findRecordById (a :: tl) i = findRecordById tl i := by
  unfold findRecordById
  exact List.find?_cons_of_neg _ (by simp [h])

theorem updateRecordById_records_pres (P : DayRecord → Prop)
    (l : List DayRecord) (i : Nat) (f : DayRecord → DayRecord)
    (hall : ∀ r ∈ l, P r)
    (hf : ∀ r, findRecordById l i = some r → P (f r)) :
    ∀ r ∈ updateRecordById l i f, P r := by
  induction l with
  | nil =>
    intro r hr
    simp [updateRecordById] at hr
  | cons a tl ih =>
    intro r hr
    rw [updateRecordById] at hr
    by_cases hid : a.id = i
    · rw [if_pos hid] at hr
      rcases List.mem_cons.mp hr with hr | hr
      · subst hr
        exact hf a (findRecordById_cons_pos a tl i hid)
      · exact hall r (List.mem_cons_of_mem a hr)
    · rw [if_neg hid] at hr
      rcases List.mem_cons.mp hr with hr | hr
      · subst hr
        exact hall r (List.mem_cons_self r tl)
      · refine ih (fun x hx => hall x (List.mem_cons_of_mem a hx)) ?_ r hr
        intro x hx
        exact hf x (by rw [findRecordById_cons_neg a tl i hid]; exact hx)

theorem findRecordById_updateRecordById (l : List DayRecord) (i : Nat)
    (f : DayRecord → DayRecord) (hid : ∀ x, (f x).id = x.id) :
    findRecordById (updateRecordById l i f) i = (findRecordById l i).map f := by
  induction l with
  | nil => rfl
  | cons a tl ih =>
    by_cases h : a.id = i
    · rw [updateRecordById, if_pos h, findRecordById_cons_pos _ tl i (by rw [hid a]; exact h),
        findRecordById_cons_pos a tl i h]
      rfl
    · rw [updateRecordById, if_neg h, findRecordById_cons_neg a _ i h,
        findRecordById_cons_neg a tl i h]
      exact ih

/-- If the first record with the searched id is found and the update fixes
it, the update is a no-op on the list. -/
theorem updateRecordById_fix (l : List DayRecord) (i : Nat)
    (f : DayRecord → DayRecord) (r : DayRecord)
    (hfind : findRecordById l i = some r) (hfr : f r = r) :
    updateRecordById l i f = l := by
  induction l with
  | nil => cases hfind
  | cons a tl ih =>
    by_cases h : a.id = i
    · have ha : a = r := by
        rw [findRecordById_cons_pos a tl i h] at hfind
        exact Option.some.inj hfind
      rw [updateRecordById, if_pos h, ha, hfr]
    · rw [findRecordById_cons_neg a tl i h] at hfind
      rw [updateRecordById, if_neg h, ih hfind]

theorem findRecordById_append_right (l₁ l₂ : List DayRecord) (i : Nat)
    (h : findRecordById l₁ i = none) :
    findRecordById (l₁ ++ l₂) i = findRecordById l₂ i := by
  unfold findRecordById at h ⊢
  rw [List.find?_append, h]
  rfl

/-! Maintenance-pass lemmas. -/

theorem foldl_insert_snd {α : Type} (g : α → ScanEventData) (l : List α)
    (s : DbState) :
    ∃ t, l.foldl (fun acc r => (insert_scan_event_v2 (g r) acc).2) s =
      { s with events := s.events ++ t, nextEventId := s.nextEventId + t.length } := by
  induction l generalizing s with
  | nil => exact ⟨[], by cases s; simp⟩
  | cons a tl ih =>
    obtain ⟨t1, h1⟩ := insert_scan_event_snd (g a) s
    obtain ⟨t2, h2⟩ := ih
      { s with events := s.events ++ t1, nextEventId := s.nextEventId + t1.length }
    refine ⟨t1 ++ t2, ?_⟩
    rw [List.foldl_cons, h1, h2]
    cases s
    simp [List.append_assoc, Nat.add_assoc]

theorem foldl_insert_records {α : Type} (g : α → ScanEventData) (l : List α)
    (s : DbState) :
    (l.foldl (fun acc r => (insert_scan_event_v2 (g r) acc).2) s).records =
      s.records := by
  obtain ⟨t, ht⟩ := foldl_insert_snd g l s
  rw [ht]

theorem apply_auto_close_records (cfg : AttendanceConfig) (now : Instant)
    (s : DbState) :
    (apply_auto_close_maintenance cfg now s).1.records =
      s.records.map
        (fun r => if autoCloseMatches cfg now r then autoCloseRecordUpdate cfg r
          else r) := by
  unfold apply_auto_close_maintenance
  exact foldl_insert_records (autoCloseEvent cfg now) _ _

theorem foldl_insert_teachers {α : Type} (g : α → ScanEventData) (l : List α)
    (s : DbState) :
    (l.foldl (fun acc r => (insert_scan_event_v2 (g r) acc).2) s).teachers =
      s.teachers := by
  obtain ⟨t, ht⟩ := foldl_insert_snd g l s
  rw [ht]

theorem foldl_insert_events_extend {α : Type} (g : α → ScanEventData) (l : List α)
    (s : DbState) :
    ∃ t, (l.foldl (fun acc r => (insert_scan_event_v2 (g r) acc).2) s).events =
      s.events ++ t := by
  obtain ⟨t, ht⟩ := foldl_insert_snd g l s
  exact ⟨t, by rw [ht]⟩

theorem apply_auto_close_events_extend (cfg : AttendanceConfig) (now : Instant)
    (s : DbState) :
    ∃ t, (apply_auto_close_maintenance cfg now s).1.events = s.events ++ t := by
  simp only [apply_auto_close_maintenance]
  exact foldl_insert_events_extend _ _ _

theorem apply_auto_close_teachers (cfg : AttendanceConfig) (now : Instant)
    (s : DbState) :
    (apply_auto_close_maintenance cfg now s).1.teachers = s.teachers := by
  simp only [apply_auto_close_maintenance]
  rw [foldl_insert_teachers]

theorem absence_foldl_step (cfg : AttendanceConfig) (d : Date) (acc : DbState)
    (tid : Nat) :
    ∃ t,
      (insert_scan_event_v2 (absenceEvent cfg acc.nextRecordId tid d)
        { acc with
          records := acc.records ++ [absenceRecord cfg acc.nextRecordId tid d]
          nextRecordId := acc.nextRecordId + 1 }).2 =
      { acc with
        records := acc.records ++ [absenceRecord cfg acc.nextRecordId tid d]
        nextRecordId := acc.nextRecordId + 1
        events := acc.events ++ t
        nextEventId := acc.nextEventId + t.length } := by
  obtain ⟨t, ht⟩ := insert_scan_event_snd (absenceEvent cfg acc.nextRecordId tid d)
    { acc with
      records := acc.records ++ [absenceRecord cfg acc.nextRecordId tid d]
      nextRecordId := acc.nextRecordId + 1 }
  exact ⟨t, by rw [ht]⟩

theorem absence_foldl_spec (cfg : AttendanceConfig) (d : Date) (l : List Nat)
    (acc : DbState) :
    ∃ recs evs,
      l.foldl
        (fun acc tid =>
          let recId := acc.nextRecordId
          let acc1 := { acc with
            records := acc.records ++ [absenceRecord cfg recId tid d]
            nextRecordId := acc.nextRecordId + 1 }
          (insert_scan_event_v2 (absenceEvent cfg recId tid d) acc1).2)
        acc =
        { acc with
          records := acc.records ++ recs
          events := acc.events ++ evs
          nextRecordId := acc.nextRecordId + recs.length
          nextEventId := acc.nextEventId + evs.length } ∧
      ∀ r ∈ recs, ∃ i tid, r = absenceRecord cfg i tid d := by
  induction l generalizing acc with
  | nil =>
    refine ⟨[], [], by cases acc; simp, ?_⟩
    intro r hr
    cases hr
  | cons a tl ih =>
    obtain ⟨t1, h1⟩ := absence_foldl_step cfg d acc a
    obtain ⟨recs, evs, h2, hmem⟩ := ih
      { acc with
        records := acc.records ++ [absenceRecord cfg acc.nextRecordId a d]
        nextRecordId := acc.nextRecordId + 1
        events := acc.events ++ t1
        nextEventId := acc.nextEventId + t1.length }
    refine ⟨absenceRecord cfg acc.nextRecordId a d :: recs, t1 ++ evs, ?_, ?_⟩
    · rw [List.foldl_cons]
      dsimp only
      rw [h1, h2]
      cases acc
      simp [List.append_assoc, Nat.add_assoc, Nat.add_comm 1]
    · intro r hr
      rcases List.mem_cons.mp hr with hr | hr
      · exact ⟨acc.nextRecordId, a, hr⟩
      · exact hmem r hr

theorem apply_absence_spec (cfg : AttendanceConfig) (now : Instant) (s : DbState) :
    ∃ recs evs,
      (apply_absence_maintenance cfg now s).1 =
        { s with
          records := s.records ++ recs
          events := s.events ++ evs
          nextRecordId := s.nextRecordId + recs.length
          nextEventId := s.nextEventId + evs.length } ∧
      ∀ r ∈ recs, ∃ i tid, r = absenceRecord cfg i tid now.date := by
  unfold apply_absence_maintenance
  by_cases h : now.timeSec < cfg.absenceCutoff
  · rw [if_pos h]
    refine ⟨[], [], by cases s; simp, ?_⟩
    intro r hr
    cases hr
  · rw [if_neg h]
    exact absence_foldl_spec cfg now.date
      (s.teachers.filter (fun tid => (findDaily s tid now.date).isNone)) s

theorem maintenance_events_extend (cfg : AttendanceConfig) (now : Instant)
    (s : DbState) :
    ∃ t, (run_attendance_maintenance_v2 cfg now s).events = s.events ++ t := by
  unfold run_attendance_maintenance_v2
  obtain ⟨t1, h1⟩ := apply_auto_close_events_extend cfg now s
  obtain ⟨recs, evs, h2, _⟩ :=
    apply_absence_spec cfg now (apply_auto_close_maintenance cfg now s).1
  rw [h2]
  exact ⟨t1 ++ evs, by rw [h1, List.append_assoc]⟩

theorem maintenance_teachers (cfg : AttendanceConfig) (now : Instant)
    (s : DbState) :
    (run_attendance_maintenance_v2 cfg now s).teachers = s.teachers := by
  unfold run_attendance_maintenance_v2
  obtain ⟨recs, evs, h2, _⟩ :=
    apply_absence_spec cfg now (apply_auto_close_maintenance cfg now s).1
  rw [h2]
  exact apply_auto_close_teachers cfg now s

/-! Invariant preservation by the maintenance sweeper. -/

theorem RecordTimeInv_absenceRecord (cfg : AttendanceConfig) (i tid : Nat)
    (d : Date) : RecordTimeInv cfg (absenceRecord cfg i tid d) := by
  refine ⟨?_, ?_, rfl⟩
  · intro o ho
    cases ho
  · intro x hx
    cases hx

theorem RecordTimeInv_autoClose (cfg : AttendanceConfig) (now : Instant)
    (x : DayRecord) (hx : RecordTimeInv cfg x)
    (hm : autoCloseMatches cfg now x = true) :
    RecordTimeInv cfg (autoCloseRecordUpdate cfg x) := by
  obtain ⟨ha, hb, hc⟩ := hx
  simp only [autoCloseMatches, Bool.and_eq_true] at hm
  obtain ⟨⟨hin, hout⟩, _⟩ := hm
  obtain ⟨i, hi⟩ := Option.isSome_iff_exists.mp hin
  refine ⟨?_, ?_, ?_⟩
  · intro o ho
    have ho' : x.scheduledEnd.getD cfg.pmEnd = o := Option.some.inj ho
    rw [hc] at ho'
    exact ⟨i, hi, by rw [← ho']; exact Nat.le_of_lt (hb i hi)⟩
  · intro j hj
    exact hb j hj
  · exact hc

theorem StateInv_maintenance (cfg : AttendanceConfig) (now : Instant)
    (s : DbState) (h : StateInv cfg s) :
    StateInv cfg (run_attendance_maintenance_v2 cfg now s) := by
  unfold run_attendance_maintenance_v2
  obtain ⟨recs, evs, h2, hmem⟩ :=
    apply_absence_spec cfg now (apply_auto_close_maintenance cfg now s).1
  rw [h2]
  intro r hr
  rcases List.mem_append.mp hr with hr | hr
  · rw [apply_auto_close_records] at hr
    obtain ⟨x, hx, hxr⟩ := List.mem_map.mp hr
    by_cases hm : autoCloseMatches cfg now x
    · rw [if_pos hm] at hxr
      rw [← hxr]
      exact RecordTimeInv_autoClose cfg now x (h x hx) hm
    · rw [if_neg hm] at hxr
      rw [← hxr]
      exact h x hx
  · obtain ⟨i, tid, rfl⟩ := hmem r hr
    exact RecordTimeInv_absenceRecord cfg i tid now.date

/-! Claim C1: idempotent replay. -/

theorem replay_lookup_of_stored (cfg : AttendanceConfig) (now : Instant)
    (inp : ScanInput) (s : DbState) (rid : String) (ev : ScanEvent)
    (hrid : inp.requestId = some rid)
    (hev : findEventByRequestId s.events rid = some ev) :
    ∃ res, replay_lookup cfg now inp s = some res ∧
      res.decisionCode = ev.decisionCode := by
  have hfind2 :
      findEventByRequestId (run_attendance_maintenance_v2 cfg now s).events rid =
        some ev := by
    obtain ⟨t, ht⟩ := maintenance_events_extend cfg now s
    unfold findEventByRequestId at hev ⊢
    rw [ht, List.find?_append, hev]
    rfl
  unfold replay_lookup
  rw [hrid]
  dsimp only
  unfold result_from_existing_request
  rw [hfind2]
  exact ⟨_, rfl, rfl⟩

/-- C1: when the request id matches an already-stored ScanEvent, the engine
returns the recorded decision unchanged, appends no new ScanEvent and
performs no DayRecord mutation: the committed state after the invocation
is exactly the input state (the replay path returns before any commit, so
the pending maintenance writes are discarded with the connection), and
this holds whatever faults the later stages would have injected. -/
theorem replay_is_side_effect_free (cfg : AttendanceConfig) (now : Instant)
    (inp : ScanInput) (lf ef : Bool) (s : DbState) (rid : String)
    (ev : ScanEvent) (hrid : inp.requestId = some rid)
    (hev : findEventByRequestId s.events rid = some ev) :
    (process_attendance_scan_v2 cfg now inp lf ef s).2 = s ∧
      (process_attendance_scan_v2 cfg now inp lf ef s).1.decisionCode =
        ev.decisionCode := by
  obtain ⟨res, hrep, hdec⟩ := replay_lookup_of_stored cfg now inp s rid ev hrid hev
  unfold process_attendance_scan_v2
  rw [hrep]
  exact ⟨rfl, hdec⟩

/-- Witness for C1: replaying request req-1 (a stored TIME_IN_SET event)
at 19:06, when the pending maintenance pass would have auto-closed the
open day record, still leaves the committed store untouched and echoes
TIME_IN_SET. -/
theorem replay_is_side_effect_free_witness :
    (process_attendance_scan_v2 scenarioConfig ⟨exDate, 69960⟩
        (exInput "19:06:00" (some "req-1")) false false exReplayState).2 =
      exReplayState ∧
    (process_attendance_scan_v2 scenarioConfig ⟨exDate, 69960⟩
        (exInput "19:06:00" (some "req-1")) false false exReplayState).1.decisionCode =
      DecisionCode.timeInSet :=
  replay_is_side_effect_free scenarioConfig ⟨exDate, 69960⟩
    (exInput "19:06:00" (some "req-1")) false false exReplayState "req-1"
    exStoredEvent rfl (by decide)

/-! Roster-hit path machinery, shared by the functional-correctness claims. -/

theorem process_roster_hit (cfg : AttendanceConfig) (now : Instant)
    (inp : ScanInput) (lf ef : Bool) (s : DbState) (tid : Nat)
    (hv : inp.scanVerified = true)
    (htid : inp.teacherId = some tid)
    (hex : (run_attendance_maintenance_v2 cfg now s).teachers.contains tid = true)
    (hrep : replay_lookup cfg now inp s = none) :
    process_attendance_scan_v2 cfg now inp lf ef s =
      roster_hit_path cfg inp
        (normalize_event_datetime inp.eventDate inp.eventTime now).1
        (normalize_event_datetime inp.eventDate inp.eventTime now).2
        (strLower (strStrip (inp.reason.getD ""))) lf ef s
        (run_attendance_maintenance_v2 cfg now s) tid := by
  unfold process_attendance_scan_v2
  rw [hrep]
  simp only [hv, htid, hex]
  rfl

theorem roster_hit_path_update_spec (cfg : AttendanceConfig) (inp : ScanInput)
    (d : Date) (t : Nat) (rk : String) (ef : Bool) (committed pending : DbState)
    (tid recId : Nat) (s2 : DbState) (r : DayRecord) (b : BranchOutcome)
    (f : DayRecord → DayRecord)
    (hgoc : get_or_create_attendance_daily_v2 cfg tid d inp.source
      (some (shift_start_for_scan cfg t)) (some cfg.pmEnd)
      (some cfg.graceMinutes) pending = (recId, s2))
    (hrec : findRecordById s2.records recId = some r)
    (hb : roster_branch cfg inp.source t (some r) = b)
    (hupd : b.update = some f)
    (hfid : ∀ x, (f x).id = x.id)
    (hfresh : ∀ rid, inp.requestId = some rid →
      findEventByRequestId s2.events rid = none) :
    roster_hit_path cfg inp d t rk false ef committed pending tid =
      (let newEvent : ScanEvent := ⟨s2.nextEventId, some tid, inp.teacherId,
        inp.confidence, b.decision, b.message, d, t, inp.source, inp.sessionId,
        inp.requestId, b.requiresAdminReview, none, some recId⟩
      let A := ((s2.events ++ [newEvent]).filter
        (fun e => decide (e.teacherId = some tid ∧ e.eventDate = d))).length
      ({ verified := true, logged := b.logged, decisionCode := b.decision
         message := b.message, teacherId := some tid, fullName := inp.fullName
         department := inp.department, confidence := inp.confidence
         dtrAction := b.dtrAction, date := d, eventTime := t
         timeIn := (f r).timeIn, timeOut := (f r).timeOut
         status := (f r).status
         remarks := coalesce (f r).remarks b.remarksLocal
         lateByMinutes := some (((f r).lateByMinutes).getD b.lateByLocal)
         workedMinutes := coalesce (f r).workedMinutes b.workedLocal
         undertimeMinutes := coalesce (f r).undertimeMinutes b.undertimeLocal
         autoClosed := (f r).autoClosedAt, scanEventId := s2.nextEventId
         dtrRecordId := some recId, scanAttemptsToday := A
         requiresAdminReview := b.requiresAdminReview
         retryAfterSeconds := b.retryAfterSeconds
         requestId := inp.requestId },
       { s2 with
         records := updateRecordById (updateRecordById s2.records recId f) recId
           (fun x => { x with scanAttempts := A })
         events := s2.events ++ [newEvent]
         nextEventId := s2.nextEventId + 1 })) := by
  simp only [roster_hit_path]
  rw [hgoc]
  dsimp only
  rw [hrec, hb, hupd]
  dsimp only
  rw [insert_scan_event_of_fresh
    ⟨some tid, inp.teacherId, inp.confidence, b.decision, b.message, d, t,
      inp.source, inp.sessionId, inp.requestId, b.requiresAdminReview, none,
      some recId⟩
    { s2 with records := updateRecordById s2.records recId f }
    (fun rid h => hfresh rid h)]
  dsimp only
  simp only [count_scan_attempts]
  rw [findRecordById_updateRecordById, findRecordById_updateRecordById, hrec]
  rotate_left
  · exact hfid
  · intro x
    rfl
  dsimp only [Option.map]
  rfl

theorem roster_hit_path_noupdate_spec (cfg : AttendanceConfig) (inp : ScanInput)
    (d : Date) (t : Nat) (rk : String) (ef : Bool) (committed pending : DbState)
    (tid recId : Nat) (s2 : DbState) (r : DayRecord) (b : BranchOutcome)
    (hgoc : get_or_create_attendance_daily_v2 cfg tid d inp.source
      (some (shift_start_for_scan cfg t)) (some cfg.pmEnd)
      (some cfg.graceMinutes) pending = (recId, s2))
    (hrec : findRecordById s2.records recId = some r)
    (hb : roster_branch cfg inp.source t (some r) = b)
    (hupd : b.update = none)
    (hfresh : ∀ rid, inp.requestId = some rid →
      findEventByRequestId s2.events rid = none) :
    roster_hit_path cfg inp d t rk false ef committed pending tid =
      (let newEvent : ScanEvent := ⟨s2.nextEventId, some tid, inp.teacherId,
        inp.confidence, b.decision, b.message, d, t, inp.source, inp.sessionId,
        inp.requestId, b.requiresAdminReview, none, some recId⟩
      let A := ((s2.events ++ [newEvent]).filter
        (fun e => decide (e.teacherId = some tid ∧ e.eventDate = d))).length
      ({ verified := true, logged := b.logged, decisionCode := b.decision
         message := b.message, teacherId := some tid, fullName := inp.fullName
         department := inp.department, confidence := inp.confidence
         dtrAction := b.dtrAction, date := d, eventTime := t
         timeIn := r.timeIn, timeOut := r.timeOut
         status := r.status
         remarks := coalesce r.remarks b.remarksLocal
         lateByMinutes := some ((r.lateByMinutes).getD b.lateByLocal)
         workedMinutes := coalesce r.workedMinutes b.workedLocal
         undertimeMinutes := coalesce r.undertimeMinutes b.undertimeLocal
         autoClosed := r.autoClosedAt, scanEventId := s2.nextEventId
         dtrRecordId := some recId, scanAttemptsToday := A
         requiresAdminReview := b.requiresAdminReview
         retryAfterSeconds := b.retryAfterSeconds
         requestId := inp.requestId },
       { s2 with
         records := updateRecordById s2.records recId
           (fun x => { x with scanAttempts := A })
         events := s2.events ++ [newEvent]
         nextEventId := s2.nextEventId + 1 })) := by
  simp only [roster_hit_path]
  rw [hgoc]
  dsimp only
  rw [hrec, hb, hupd]
  dsimp only
  rw [insert_scan_event_of_fresh
    ⟨some tid, inp.teacherId, inp.confidence, b.decision, b.message, d, t,
      inp.source, inp.sessionId, inp.requestId, b.requiresAdminReview, none,
      some recId⟩
    s2 (fun rid h => hfresh rid h)]
  dsimp only
  simp only [count_scan_attempts]
  rw [findRecordById_updateRecordById, hrec]
  rotate_left
  · intro x
    rfl
  dsimp only [Option.map]
  rfl


theorem roster_branch_time_in (cfg : AttendanceConfig) (src : String) (t : Nat)
    (r : DayRecord) (ss g : Nat)
    (hti : r.timeIn = none)
    (hw : (in_am_window cfg t || in_pm_window cfg t) = true)
    (hss : r.scheduledStart = some ss)
    (hg : r.graceMinutes = some g) :
    roster_branch cfg src t (some r) =
      { decision := .timeInSet, message := "Time-in recorded."
        logged := true, dtrAction := .timeInAction, requiresAdminReview := false
        retryAfterSeconds := none, remarksLocal := none
        lateByLocal := (time_in_status t ss g).2
        workedLocal := r.workedMinutes, undertimeLocal := r.undertimeMinutes
        update := some (fun x =>
          { x with
            timeIn := some t
            status := some (time_in_status t ss g).1
            remarks := none
            source := src
            lateByMinutes := some (time_in_status t ss g).2
            workedMinutes := none
            undertimeMinutes := none
            autoClosedAt := false }) } := by
  simp only [roster_branch, Option.some_bind]
  rw [hti, hss, hg]
  simp only [Option.isSome_none, Bool.false_and, hw, Bool.not_true,
    Option.isNone_none, Option.getD_some, Bool.false_eq_true, if_false, if_true]



theorem roster_branch_duplicate (cfg : AttendanceConfig) (src : String)
    (t : Nat) (r : DayRecord) (ti : Nat)
    (hti : r.timeIn = some ti)
    (hto : r.timeOut = none)
    (hw : (in_am_window cfg t || in_pm_window cfg t) = true)
    (hguard : 0 < cfg.duplicateCooldownSeconds ∧
      seconds_between_same_day ti t < (cfg.duplicateCooldownSeconds : Int)) :
    roster_branch cfg src t (some r) =
      { decision := .duplicateIgnored
        message := "Duplicate scan ignored; too soon after time-in."
        logged := false, dtrAction := .noneAction, requiresAdminReview := false
        retryAfterSeconds := some ((cfg.duplicateCooldownSeconds : Int) -
          seconds_between_same_day ti t)
        remarksLocal := r.remarks
        lateByLocal := (r.lateByMinutes).getD 0
        workedLocal := r.workedMinutes, undertimeLocal := r.undertimeMinutes
        update := none } := by
  simp only [roster_branch, Option.some_bind]
  simp only [hti, hto, hw]
  simp only [Option.isSome_some, Option.isSome_none, Bool.and_false,
    Bool.not_true, Option.isNone_some, Option.isNone_none, Option.getD_some,
    Bool.false_eq_true, if_false, if_true]
  rw [if_pos hguard]

theorem roster_branch_timeout (cfg : AttendanceConfig) (src : String)
    (t : Nat) (r : DayRecord) (ti ss se : Nat)
    (hti : r.timeIn = some ti)
    (hto : r.timeOut = none)
    (hw : (in_am_window cfg t || in_pm_window cfg t) = true)
    (hss : r.scheduledStart = some ss)
    (hse : r.scheduledEnd = some se)
    (hguard : ¬(0 < cfg.duplicateCooldownSeconds ∧
      seconds_between_same_day ti t < (cfg.duplicateCooldownSeconds : Int))) :
    roster_branch cfg src t (some r) =
      { decision := .timeOutSet
        message := "Time-out recorded."
        logged := true, dtrAction := .timeOutAction, requiresAdminReview := false
        retryAfterSeconds := none
        remarksLocal := none
        lateByLocal := (r.lateByMinutes).getD 0
        workedLocal := some ((t - ti) / 60)
        undertimeLocal := some ((se - ss) / 60 - (t - ti) / 60)
        update := some (fun x =>
          { x with
            timeOut := some t
            status := some (if r.status.getD .absent = .present ∨
              r.status.getD .absent = .late then r.status.getD .absent
              else .present)
            remarks := none
            source := src
            workedMinutes := some ((t - ti) / 60)
            undertimeMinutes := some ((se - ss) / 60 - (t - ti) / 60) }) } := by
  simp only [roster_branch, Option.some_bind]
  simp only [hti, hto, hw, hss, hse]
  simp only [Option.isSome_some, Option.isSome_none, Bool.and_false,
    Bool.not_true, Option.isNone_some, Option.isNone_none, Option.getD_some,
    Bool.false_eq_true, if_false, if_true]
  rw [if_neg hguard]
  simp only [compute_work_and_undertime, minutes_between_clock_times,
    scheduled_minutes]
  rfl

theorem roster_branch_outside (cfg : AttendanceConfig) (src : String)
    (t : Nat) (r : DayRecord) (se : Nat)
    (hnc : (r.timeIn.isSome && r.timeOut.isSome) = false)
    (hw : (in_am_window cfg t || in_pm_window cfg t) = false)
    (hse : r.scheduledEnd = some se)
    (hcan : (r.timeIn.isSome && r.timeOut.isNone && decide (se ≤ t)) = false) :
    roster_branch cfg src t (some r) =
      { decision := if is_lunch_break cfg t then .outsideScheduleLunch
          else .outsideSchedule
        message := if is_lunch_break cfg t then "Scan is during lunch break."
          else "Scan is outside shift hours."
        logged := false, dtrAction := .noneAction, requiresAdminReview := true
        retryAfterSeconds := none
        remarksLocal := some (if is_lunch_break cfg t then
          "Scan is during lunch break." else "Scan is outside shift hours.")
        lateByLocal := (r.lateByMinutes).getD 0
        workedLocal := r.workedMinutes, undertimeLocal := r.undertimeMinutes
        update := some (fun x =>
          { x with
            status := some (if r.timeIn.isNone && r.timeOut.isNone then
                (if r.status.getD .absent = .absent ∧ r.absenceMarkedAt then
                  AttendanceStatus.absent
                else AttendanceStatus.outsideHours)
              else r.status.getD .absent)
            remarks := some (if is_lunch_break cfg t then
              "Scan is during lunch break." else "Scan is outside shift hours.")
            source := src }) } := by
  simp only [roster_branch, Option.some_bind]
  simp only [hse, Option.getD_some]
  simp only [hnc, hw, hcan]
  simp only [Bool.not_false, Bool.false_eq_true, if_false, if_true]
  rfl


/-- C3 (amended): for every verified roster-hit scan inside the AM or PM
window whose day record has time_in unset, the engine sets
time_in = eventTime, returns TIME_IN_SET, clears the auto-close artifact
and the worked/undertime columns, and computes Present with 0 late
minutes when eventTime is at or before scheduledStart + graceMinutes,
else Late with the floor minutes from scheduledStart to eventTime.  (The
original claim also asserted that with AM start 07:30 a 07:00 scan gives
Present/0; a 07:00 scan is outside the window and is rejected as
OUTSIDE_SCHEDULE, see the counterexample.  A 07:45 scan gives Late/15 as
claimed, see the witness.) -/
theorem time_in_sets_record (cfg : AttendanceConfig) (now : Instant)
    (inp : ScanInput) (ef : Bool) (s : DbState) (tid : Nat) (d : Date) (t : Nat)
    (recId : Nat) (s2 : DbState) (r : DayRecord) (ss g : Nat)
    (hv : inp.scanVerified = true)
    (htid : inp.teacherId = some tid)
    (hex : (run_attendance_maintenance_v2 cfg now s).teachers.contains tid = true)
    (hrep : replay_lookup cfg now inp s = none)
    (hnorm : normalize_event_datetime inp.eventDate inp.eventTime now = (d, t))
    (hgoc : get_or_create_attendance_daily_v2 cfg tid d inp.source
      (some (shift_start_for_scan cfg t)) (some cfg.pmEnd)
      (some cfg.graceMinutes) (run_attendance_maintenance_v2 cfg now s) =
      (recId, s2))
    (hrec : findRecordById s2.records recId = some r)
    (hfresh : ∀ rid, inp.requestId = some rid →
      findEventByRequestId s2.events rid = none)
    (hti : r.timeIn = none)
    (hw : (in_am_window cfg t || in_pm_window cfg t) = true)
    (hss : r.scheduledStart = some ss)
    (hg : r.graceMinutes = some g) :
    (process_attendance_scan_v2 cfg now inp false ef s).1.decisionCode =
        DecisionCode.timeInSet ∧
    (process_attendance_scan_v2 cfg now inp false ef s).1.timeIn = some t ∧
    (process_attendance_scan_v2 cfg now inp false ef s).1.autoClosed = false ∧
    (process_attendance_scan_v2 cfg now inp false ef s).1.status =
      some (time_in_status t ss g).1 ∧
    (process_attendance_scan_v2 cfg now inp false ef s).1.lateByMinutes =
      some (time_in_status t ss g).2 ∧
    (t ≤ add_minutes_to_time ss g →
      (process_attendance_scan_v2 cfg now inp false ef s).1.status =
          some AttendanceStatus.present ∧
        (process_attendance_scan_v2 cfg now inp false ef s).1.lateByMinutes =
          some 0) ∧
    (add_minutes_to_time ss g < t →
      (process_attendance_scan_v2 cfg now inp false ef s).1.status =
          some AttendanceStatus.late ∧
        (process_attendance_scan_v2 cfg now inp false ef s).1.lateByMinutes =
          some ((t - ss) / 60)) ∧
    ∃ r', findRecordById (process_attendance_scan_v2 cfg now inp false ef s).2.records
        recId = some r' ∧
      r'.timeIn = some t ∧ r'.autoClosedAt = false ∧
      r'.status = some (time_in_status t ss g).1 ∧
      r'.lateByMinutes = some (time_in_status t ss g).2 ∧
      r'.workedMinutes = none ∧ r'.undertimeMinutes = none := by
  rw [process_roster_hit cfg now inp false ef s tid hv htid hex hrep]
  simp only [hnorm]
  rw [roster_hit_path_update_spec cfg inp d t _ ef s _ tid recId s2 r _ _ hgoc
    hrec (roster_branch_time_in cfg inp.source t r ss g hti hw hss hg) rfl
    (fun x => rfl) hfresh]
  refine ⟨rfl, rfl, rfl, rfl, rfl, ?_, ?_, ?_⟩
  · intro h
    have hst : time_in_status t ss g = (.present, 0) := by
      unfold time_in_status
      rw [if_pos h]
    constructor
    · show (some (time_in_status t ss g).1 : Option AttendanceStatus) = _
      rw [hst]
    · show (some ((some (time_in_status t ss g).2).getD _) : Option Nat) = _
      rw [hst]
      rfl
  · intro h
    have hst : time_in_status t ss g =
        (.late, (minutes_between_clock_times (some ss) (some t)).getD 0) := by
      unfold time_in_status
      rw [if_neg (by omega)]
    constructor
    · show (some (time_in_status t ss g).1 : Option AttendanceStatus) = _
      rw [hst]
    · show (some ((some (time_in_status t ss g).2).getD _) : Option Nat) = _
      rw [hst]
      simp only [minutes_between_clock_times, Option.getD_some]
  · dsimp only
    rw [findRecordById_updateRecordById, findRecordById_updateRecordById, hrec]
    rotate_left
    · intro x
      rfl
    · intro x
      rfl
    exact ⟨_, rfl, rfl, rfl, rfl, rfl, rfl, rfl⟩



/-- Witness for C3: the 07:45:00 scan of the worked example records the
time-in and computes Late with 15 late minutes. -/
theorem time_in_sets_record_witness :
    (process_attendance_scan_v2 scenarioConfig ⟨exDate, 27900⟩
        (exInput "07:45:00" none) false false exEmptyState).1.decisionCode =
      DecisionCode.timeInSet ∧
    (process_attendance_scan_v2 scenarioConfig ⟨exDate, 27900⟩
        (exInput "07:45:00" none) false false exEmptyState).1.status =
      some AttendanceStatus.late ∧
    (process_attendance_scan_v2 scenarioConfig ⟨exDate, 27900⟩
        (exInput "07:45:00" none) false false exEmptyState).1.lateByMinutes =
      some 15 ∧
    (process_attendance_scan_v2 scenarioConfig ⟨exDate, 27900⟩
        (exInput "07:45:00" none) false false exEmptyState).1.timeIn =
      some 27900 := by
  have h := time_in_sets_record scenarioConfig ⟨exDate, 27900⟩
    (exInput "07:45:00" none) false exEmptyState 1 exDate 27900 1
    (get_or_create_attendance_daily_v2 scenarioConfig 1 exDate "LiveFaceCapture"
      (some 27000) (some 68400) (some 10)
      (run_attendance_maintenance_v2 scenarioConfig ⟨exDate, 27900⟩ exEmptyState)).2
    ⟨1, 1, exDate, none, none, none, none, 0, "LiveFaceCapture", some 27000,
      some 68400, some 10, some 0, none, none, false, false⟩
    27000 10 rfl rfl rfl rfl (by decide) rfl rfl
    (fun rid h => Option.noConfusion h) rfl (by decide) rfl rfl
  obtain ⟨h1, h2, -, -, -, -, hlate, -⟩ := h
  obtain ⟨hs, hl⟩ := hlate (by decide)
  exact ⟨h1, hs, hl, h2⟩

/-- Counterexample for C3 as stated: under the AM window 07:30-12:00 of
the worked example, a verified roster-hit scan at 07:00:00 is not inside
the AM window, so the engine returns OUTSIDE_SCHEDULE and marks the day
Outside Hours instead of recording a Present time-in with 0 late
minutes. -/
theorem time_in_grace_example_cex :
    (process_attendance_scan_v2 scenarioConfig ⟨exDate, 25200⟩
        (exInput "07:00:00" none) false false exEmptyState).1.decisionCode =
      DecisionCode.outsideSchedule ∧
    (process_attendance_scan_v2 scenarioConfig ⟨exDate, 25200⟩
        (exInput "07:00:00" none) false false exEmptyState).1.status =
      some AttendanceStatus.outsideHours := by
  exact ⟨rfl, rfl⟩


/-- C4 (amended): for every verified in-window scan with time_in set and
time_out unset, when the elapsed seconds since time_in are below the
configured (positive) cooldown the decision is DUPLICATE_IGNORED with
retry_after_seconds = cooldown - elapsed and no DayRecord field other
than the denormalised scan_attempts counter is changed; otherwise
time_out = eventTime is set, worked_minutes = minutes(time_in, time_out),
undertime_minutes = max(0, scheduledMinutes - workedMinutes), the
decision is TIME_OUT_SET, and the status is promoted to Present unless it
was Present or Late.  (The original claim said no DayRecord field at all
changes on DUPLICATE_IGNORED; the engine still recomputes and stores
scan_attempts on every roster hit, see the counterexample.) -/
theorem duplicate_cooldown_or_timeout (cfg : AttendanceConfig) (now : Instant)
    (inp : ScanInput) (ef : Bool) (s : DbState) (tid : Nat) (d : Date)
    (t : Nat) (recId : Nat) (s2 : DbState) (r : DayRecord) (ti ss se : Nat)
    (hv : inp.scanVerified = true)
    (htid : inp.teacherId = some tid)
    (hex : (run_attendance_maintenance_v2 cfg now s).teachers.contains tid = true)
    (hrep : replay_lookup cfg now inp s = none)
    (hnorm : normalize_event_datetime inp.eventDate inp.eventTime now = (d, t))
    (hgoc : get_or_create_attendance_daily_v2 cfg tid d inp.source
      (some (shift_start_for_scan cfg t)) (some cfg.pmEnd)
      (some cfg.graceMinutes) (run_attendance_maintenance_v2 cfg now s) =
      (recId, s2))
    (hrec : findRecordById s2.records recId = some r)
    (hfresh : ∀ rid, inp.requestId = some rid →
      findEventByRequestId s2.events rid = none)
    (hti : r.timeIn = some ti)
    (hto : r.timeOut = none)
    (hw : (in_am_window cfg t || in_pm_window cfg t) = true)
    (hss : r.scheduledStart = some ss)
    (hse : r.scheduledEnd = some se)
    (hcd : 0 < cfg.duplicateCooldownSeconds) :
    (seconds_between_same_day ti t < (cfg.duplicateCooldownSeconds : Int) →
      (process_attendance_scan_v2 cfg now inp false ef s).1.decisionCode =
          DecisionCode.duplicateIgnored ∧
        (process_attendance_scan_v2 cfg now inp false ef s).1.retryAfterSeconds =
          some ((cfg.duplicateCooldownSeconds : Int) -
            seconds_between_same_day ti t) ∧
        ∃ n, findRecordById
            (process_attendance_scan_v2 cfg now inp false ef s).2.records recId =
          some { r with scanAttempts := n }) ∧
    (¬seconds_between_same_day ti t < (cfg.duplicateCooldownSeconds : Int) →
      (process_attendance_scan_v2 cfg now inp false ef s).1.decisionCode =
          DecisionCode.timeOutSet ∧
        (process_attendance_scan_v2 cfg now inp false ef s).1.timeOut = some t ∧
        (process_attendance_scan_v2 cfg now inp false ef s).1.workedMinutes =
          some ((t - ti) / 60) ∧
        (process_attendance_scan_v2 cfg now inp false ef s).1.undertimeMinutes =
          some ((se - ss) / 60 - (t - ti) / 60) ∧
        (process_attendance_scan_v2 cfg now inp false ef s).1.status =
          some (if r.status.getD .absent = .present ∨
              r.status.getD .absent = .late then r.status.getD .absent
            else .present) ∧
        ∃ n, findRecordById
            (process_attendance_scan_v2 cfg now inp false ef s).2.records recId =
          some { r with
            timeOut := some t
            status := some (if r.status.getD .absent = .present ∨
                r.status.getD .absent = .late then r.status.getD .absent
              else .present)
            remarks := none
            source := inp.source
            workedMinutes := some ((t - ti) / 60)
            undertimeMinutes := some ((se - ss) / 60 - (t - ti) / 60)
            scanAttempts := n }) := by
  rw [process_roster_hit cfg now inp false ef s tid hv htid hex hrep]
  simp only [hnorm]
  by_cases hel : seconds_between_same_day ti t < (cfg.duplicateCooldownSeconds : Int)
  · rw [roster_hit_path_noupdate_spec cfg inp d t _ ef s _ tid recId s2 r _ hgoc
      hrec (roster_branch_duplicate cfg inp.source t r ti hti hto hw ⟨hcd, hel⟩)
      rfl hfresh]
    constructor
    · intro _
      refine ⟨rfl, rfl, ?_⟩
      dsimp only
      rw [findRecordById_updateRecordById, hrec]
      rotate_left
      · intro x
        rfl
      exact ⟨_, rfl⟩
    · intro h
      exact absurd hel h
  · rw [roster_hit_path_update_spec cfg inp d t _ ef s _ tid recId s2 r _ _ hgoc
      hrec (roster_branch_timeout cfg inp.source t r ti ss se hti hto hw hss hse
        (fun hc => hel hc.2)) rfl (fun x => rfl) hfresh]
    constructor
    · intro h
      exact absurd h hel
    · intro _
      refine ⟨rfl, rfl, rfl, rfl, rfl, ?_⟩
      dsimp only
      rw [findRecordById_updateRecordById, findRecordById_updateRecordById, hrec]
      rotate_left
      · intro x
        rfl
      · intro x
        rfl
      exact ⟨_, rfl⟩



/-- Witness for C4: a second scan 5 seconds after the recorded 07:45:00
time-in is DUPLICATE_IGNORED with retry_after_seconds = 55. -/
theorem duplicate_cooldown_or_timeout_witness :
    (process_attendance_scan_v2 scenarioConfig ⟨exDate, 27905⟩
        (exInput "07:45:05" none) false false exReplayState).1.decisionCode =
      DecisionCode.duplicateIgnored ∧
    (process_attendance_scan_v2 scenarioConfig ⟨exDate, 27905⟩
        (exInput "07:45:05" none) false false exReplayState).1.retryAfterSeconds =
      some 55 := by
  have h := duplicate_cooldown_or_timeout scenarioConfig ⟨exDate, 27905⟩
    (exInput "07:45:05" none) false exReplayState 1 exDate 27905 1
    (get_or_create_attendance_daily_v2 scenarioConfig 1 exDate "LiveFaceCapture"
      (some 27000) (some 68400) (some 10)
      (run_attendance_maintenance_v2 scenarioConfig ⟨exDate, 27905⟩
        exReplayState)).2
    exOpenRecord 27900 27000 68400 rfl rfl rfl rfl (by decide) rfl rfl
    (fun rid h => Option.noConfusion h) rfl rfl (by decide) rfl rfl (by decide)
  obtain ⟨hA, -⟩ := h
  obtain ⟨h1, h2, -⟩ := hA (by decide)
  refine ⟨h1, ?_⟩
  rw [h2]
  decide

/-- Counterexample for C4 as stated: the DUPLICATE_IGNORED branch still
changes the DayRecord scan_attempts field (from 1 to 2 here), because the
engine recomputes the denormalised counter on every roster hit. -/
theorem duplicate_mutates_scan_attempts_cex :
    (process_attendance_scan_v2 scenarioConfig ⟨exDate, 27905⟩
        (exInput "07:45:05" none) false false exReplayState).1.decisionCode =
      DecisionCode.duplicateIgnored ∧
    findRecordById (process_attendance_scan_v2 scenarioConfig ⟨exDate, 27905⟩
        (exInput "07:45:05" none) false false exReplayState).2.records 1 =
      some { exOpenRecord with scanAttempts := 2 } ∧
    exOpenRecord.scanAttempts = 1 :=
  ⟨rfl, rfl, rfl⟩

/-- C5 (amended): in the worked example (AM window 07:30-12:00, grace 10,
first scan 07:45:00 recorded as time-in, cooldown 60 s), a second scan at
07:45:05 — five seconds after the first scan timestamp — yields
DUPLICATE_IGNORED with retry_after_seconds = 55, and changes nothing on
the DayRecord apart from the refreshed scan_attempts counter.  (The
spec places the second scan at 07:50:00, but 300 elapsed seconds exceed
the 60 s cooldown, so that scan is a TIME_OUT_SET, see the
counterexample.) -/
theorem second_scan_cooldown_example :
    findRecordById (process_attendance_scan_v2 scenarioConfig ⟨exDate, 27900⟩
        (exInput "07:45:00" none) false false exEmptyState).2.records 1 =
      some exOpenRecord ∧
    (process_attendance_scan_v2 scenarioConfig ⟨exDate, 27905⟩
        (exInput "07:45:05" none) false false
        (process_attendance_scan_v2 scenarioConfig ⟨exDate, 27900⟩
          (exInput "07:45:00" none) false false exEmptyState).2).1.decisionCode =
      DecisionCode.duplicateIgnored ∧
    (process_attendance_scan_v2 scenarioConfig ⟨exDate, 27905⟩
        (exInput "07:45:05" none) false false
        (process_attendance_scan_v2 scenarioConfig ⟨exDate, 27900⟩
          (exInput "07:45:00" none) false false exEmptyState).2).1.retryAfterSeconds =
      some 55 ∧
    findRecordById (process_attendance_scan_v2 scenarioConfig ⟨exDate, 27905⟩
        (exInput "07:45:05" none) false false
        (process_attendance_scan_v2 scenarioConfig ⟨exDate, 27900⟩
          (exInput "07:45:00" none) false false exEmptyState).2).2.records 1 =
      some { exOpenRecord with scanAttempts := 2 } :=
  ⟨rfl, rfl, rfl, rfl⟩

/-- Counterexample for C5 as stated: the second scan at 07:50:00 of the
worked example is 300 seconds after the 07:45:00 time-in, beyond the 60 s
cooldown, so the engine records it as TIME_OUT_SET (with no
retry_after_seconds), not DUPLICATE_IGNORED. -/
theorem second_scan_at_0750_cex :
    (process_attendance_scan_v2 scenarioConfig ⟨exDate, 28200⟩
        (exInput "07:50:00" none) false false
        (process_attendance_scan_v2 scenarioConfig ⟨exDate, 27900⟩
          (exInput "07:45:00" none) false false exEmptyState).2).1.decisionCode =
      DecisionCode.timeOutSet ∧
    (process_attendance_scan_v2 scenarioConfig ⟨exDate, 28200⟩
        (exInput "07:50:00" none) false false
        (process_attendance_scan_v2 scenarioConfig ⟨exDate, 27900⟩
          (exInput "07:45:00" none) false false exEmptyState).2).1.decisionCode ≠
      DecisionCode.duplicateIgnored ∧
    (process_attendance_scan_v2 scenarioConfig ⟨exDate, 28200⟩
        (exInput "07:50:00" none) false false
        (process_attendance_scan_v2 scenarioConfig ⟨exDate, 27900⟩
          (exInput "07:45:00" none) false false exEmptyState).2).1.retryAfterSeconds =
      none :=
  ⟨rfl, by decide, rfl⟩


/-- C7 (amended): for every verified roster-hit scan outside both shift
windows whose DayRecord is not already complete and that does not qualify
as a late time-out, the decision is OUTSIDE_SCHEDULE_LUNCH within the
lunch gap and OUTSIDE_SCHEDULE otherwise, the result is always flagged
for admin review, no DayRecord time field is mutated (only status,
remarks, source and the scan_attempts counter are written), and the
status is changed to Outside Hours only if the record had neither
time_in nor time_out.  (The original claim omitted the day-complete
exclusion: a record with both times set takes the DAY_COMPLETE branch
first, see the counterexample.) -/
theorem outside_schedule_branch (cfg : AttendanceConfig) (now : Instant)
    (inp : ScanInput) (ef : Bool) (s : DbState) (tid : Nat) (d : Date)
    (t : Nat) (recId : Nat) (s2 : DbState) (r : DayRecord) (se : Nat)
    (hv : inp.scanVerified = true)
    (htid : inp.teacherId = some tid)
    (hex : (run_attendance_maintenance_v2 cfg now s).teachers.contains tid = true)
    (hrep : replay_lookup cfg now inp s = none)
    (hnorm : normalize_event_datetime inp.eventDate inp.eventTime now = (d, t))
    (hgoc : get_or_create_attendance_daily_v2 cfg tid d inp.source
      (some (shift_start_for_scan cfg t)) (some cfg.pmEnd)
      (some cfg.graceMinutes) (run_attendance_maintenance_v2 cfg now s) =
      (recId, s2))
    (hrec : findRecordById s2.records recId = some r)
    (hfresh : ∀ rid, inp.requestId = some rid →
      findEventByRequestId s2.events rid = none)
    (hnc : (r.timeIn.isSome && r.timeOut.isSome) = false)
    (hw : (in_am_window cfg t || in_pm_window cfg t) = false)
    (hse : r.scheduledEnd = some se)
    (hcan : (r.timeIn.isSome && r.timeOut.isNone && decide (se ≤ t)) = false) :
    (process_attendance_scan_v2 cfg now inp false ef s).1.decisionCode =
      (if is_lunch_break cfg t then DecisionCode.outsideScheduleLunch
        else DecisionCode.outsideSchedule) ∧
    (process_attendance_scan_v2 cfg now inp false ef s).1.requiresAdminReview =
      true ∧
    (∃ n, findRecordById
        (process_attendance_scan_v2 cfg now inp false ef s).2.records recId =
      some { r with
        status := some (if r.timeIn.isNone && r.timeOut.isNone then
            (if r.status.getD .absent = .absent ∧ r.absenceMarkedAt then
              AttendanceStatus.absent
            else AttendanceStatus.outsideHours)
          else r.status.getD .absent)
        remarks := some (if is_lunch_break cfg t then
          "Scan is during lunch break." else "Scan is outside shift hours.")
        source := inp.source
        scanAttempts := n }) ∧
    ((if r.timeIn.isNone && r.timeOut.isNone then
        (if r.status.getD .absent = .absent ∧ r.absenceMarkedAt then
          AttendanceStatus.absent
        else AttendanceStatus.outsideHours)
      else r.status.getD .absent) = AttendanceStatus.outsideHours →
      r.status.getD .absent ≠ AttendanceStatus.outsideHours →
      r.timeIn = none ∧ r.timeOut = none) := by
  rw [process_roster_hit cfg now inp false ef s tid hv htid hex hrep]
  simp only [hnorm]
  rw [roster_hit_path_update_spec cfg inp d t _ ef s _ tid recId s2 r _ _ hgoc
    hrec (roster_branch_outside cfg inp.source t r se hnc hw hse hcan) rfl
    (fun x => rfl) hfresh]
  refine ⟨rfl, rfl, ?_, ?_⟩
  · dsimp only
    rw [findRecordById_updateRecordById, findRecordById_updateRecordById, hrec]
    rotate_left
    · intro x
      rfl
    · intro x
      rfl
    exact ⟨_, rfl⟩
  · intro h1 h2
    by_cases hb1 : (r.timeIn.isNone && r.timeOut.isNone) = true
    · rw [Bool.and_eq_true] at hb1
      exact ⟨Option.isNone_iff_eq_none.mp hb1.1, Option.isNone_iff_eq_none.mp hb1.2⟩
    · rw [if_neg hb1] at h1
      exact absurd h1 h2

/-- Witness for C7: a 12:15:00 scan in the 12:00-13:00 lunch gap with no
existing time-in is OUTSIDE_SCHEDULE_LUNCH and flagged for review. -/
theorem outside_schedule_branch_witness :
    (process_attendance_scan_v2 scenarioConfig ⟨exDate, 44100⟩
        (exInput "12:15:00" none) false false exEmptyState).1.decisionCode =
      DecisionCode.outsideScheduleLunch ∧
    (process_attendance_scan_v2 scenarioConfig ⟨exDate, 44100⟩
        (exInput "12:15:00" none) false false exEmptyState).1.requiresAdminReview =
      true := by
  have h := outside_schedule_branch scenarioConfig ⟨exDate, 44100⟩
    (exInput "12:15:00" none) false exEmptyState 1 exDate 44100 1
    (get_or_create_attendance_daily_v2 scenarioConfig 1 exDate "LiveFaceCapture"
      (some 27000) (some 68400) (some 10)
      (run_attendance_maintenance_v2 scenarioConfig ⟨exDate, 44100⟩
        exEmptyState)).2
    ⟨1, 1, exDate, none, none, none, none, 0, "LiveFaceCapture", some 27000,
      some 68400, some 10, some 0, none, none, false, false⟩
    68400 rfl rfl rfl rfl (by decide) rfl rfl
    (fun rid h => Option.noConfusion h) rfl (by decide) rfl rfl
  obtain ⟨h1, h2, -, -⟩ := h
  exact ⟨h1, h2⟩

/-- Counterexample for C7 as stated: an outside-window scan on a day
record that already has both time_in and time_out is not a late time-out
case, yet the engine answers DAY_COMPLETE without flagging for review,
not OUTSIDE_SCHEDULE_LUNCH. -/
theorem outside_schedule_day_complete_cex :
    (process_attendance_scan_v2 scenarioConfig ⟨exDate, 44100⟩
        (exInput "12:15:00" none) false false exCompleteState).1.decisionCode =
      DecisionCode.dayComplete ∧
    (process_attendance_scan_v2 scenarioConfig ⟨exDate, 44100⟩
        (exInput "12:15:00" none) false false exCompleteState).1.decisionCode ≠
      DecisionCode.outsideScheduleLunch ∧
    (process_attendance_scan_v2 scenarioConfig ⟨exDate, 44100⟩
        (exInput "12:15:00" none) false false
        exCompleteState).1.requiresAdminReview = false :=
  ⟨rfl, by decide, rfl⟩


theorem get_or_create_existing (cfg : AttendanceConfig) (tid : Nat) (d : Date)
    (src : String) (a b c : Option Nat) (m : DbState) (r : DayRecord)
    (ss se g : Nat)
    (hfound : findDaily m tid d = some r)
    (hss : r.scheduledStart = some ss) (hse : r.scheduledEnd = some se)
    (hg : r.graceMinutes = some g)
    (hrid : findRecordById m.records r.id = some r) :
    get_or_create_attendance_daily_v2 cfg tid d src a b c m = (r.id, m) := by
  unfold get_or_create_attendance_daily_v2
  rw [hfound]
  dsimp only
  have hfr : (fun row => { row with
      scheduledStart := some (row.scheduledStart.getD (a.getD cfg.amStart))
      scheduledEnd := some (row.scheduledEnd.getD (b.getD cfg.pmEnd))
      graceMinutes := some (row.graceMinutes.getD (c.getD cfg.graceMinutes)) }) r
      = r := by
    dsimp only
    simp only [hss, hse, hg, Option.getD_some]
    rw [← hss, ← hse, ← hg]
  by_cases hcond : (r.scheduledStart ≠ some (a.getD cfg.amStart) ∨
      r.scheduledEnd ≠ some (b.getD cfg.pmEnd) ∨
      r.graceMinutes ≠ some (c.getD cfg.graceMinutes))
  · rw [if_pos hcond, updateRecordById_fix m.records r.id _ r hrid hfr]
  · rw [if_neg hcond]

theorem get_or_create_new (cfg : AttendanceConfig) (tid : Nat) (d : Date)
    (src : String) (a b c : Option Nat) (m : DbState)
    (hnone : findDaily m tid d = none) :
    get_or_create_attendance_daily_v2 cfg tid d src a b c m =
      (m.nextRecordId,
        { m with
          records := m.records ++
            [⟨m.nextRecordId, tid, d, none, none, none, none, 0, src,
              some (a.getD cfg.amStart), some (b.getD cfg.pmEnd),
              some (c.getD cfg.graceMinutes), some 0, none, none, false, false⟩]
          nextRecordId := m.nextRecordId + 1 }) := by
  unfold get_or_create_attendance_daily_v2
  rw [hnone]



/-- C6 (amended): for every verified roster-hit scan whose (personId,
date) has no existing DayRecord, the created record carries
scheduledStart derived from the Schedule Resolver at the scan window —
PM start for a scan inside the PM window, AM start otherwise —
and the lateness computation for an in-window time-in uses that start;
when the DayRecord already existed with stored (non-null) schedule
values, the stored values are preserved (the load-or-create COALESCE
never overwrites them) and the lateness computation uses the stored
scheduledStart.  (The original claim asserted the scan-window start is
used even for pre-existing records; the counterexample shows a stored AM
start winning over a PM scan.) -/
theorem schedule_start_from_scan_window (cfg : AttendanceConfig) (now : Instant)
    (inp : ScanInput) (ef : Bool) (s : DbState) (tid : Nat) (d : Date) (t : Nat)
    (hv : inp.scanVerified = true)
    (htid : inp.teacherId = some tid)
    (hex : (run_attendance_maintenance_v2 cfg now s).teachers.contains tid = true)
    (hrep : replay_lookup cfg now inp s = none)
    (hnorm : normalize_event_datetime inp.eventDate inp.eventTime now = (d, t))
    (hfreshEv : ∀ rid, inp.requestId = some rid →
      findEventByRequestId (run_attendance_maintenance_v2 cfg now s).events rid =
        none) :
    ((findDaily (run_attendance_maintenance_v2 cfg now s) tid d = none ∧
      (∀ x ∈ (run_attendance_maintenance_v2 cfg now s).records,
        x.id ≠ (run_attendance_maintenance_v2 cfg now s).nextRecordId) ∧
      (in_am_window cfg t || in_pm_window cfg t) = true) →
      ∃ r', findRecordById
          (process_attendance_scan_v2 cfg now inp false ef s).2.records
          (run_attendance_maintenance_v2 cfg now s).nextRecordId = some r' ∧
        r'.scheduledStart = some (shift_start_for_scan cfg t) ∧
        (in_pm_window cfg t = true → r'.scheduledStart = some cfg.pmStart) ∧
        (in_pm_window cfg t = false → r'.scheduledStart = some cfg.amStart) ∧
        (process_attendance_scan_v2 cfg now inp false ef s).1.decisionCode =
          DecisionCode.timeInSet ∧
        (process_attendance_scan_v2 cfg now inp false ef s).1.lateByMinutes =
          some (time_in_status t (shift_start_for_scan cfg t)
            cfg.graceMinutes).2) ∧
    (∀ r ss se g, findDaily (run_attendance_maintenance_v2 cfg now s) tid d =
        some r →
      r.scheduledStart = some ss → r.scheduledEnd = some se →
      r.graceMinutes = some g →
      findRecordById (run_attendance_maintenance_v2 cfg now s).records r.id =
        some r →
      r.timeIn = none → (in_am_window cfg t || in_pm_window cfg t) = true →
      ∃ r', findRecordById
          (process_attendance_scan_v2 cfg now inp false ef s).2.records r.id =
        some r' ∧
        r'.scheduledStart = some ss ∧
        (process_attendance_scan_v2 cfg now inp false ef s).1.lateByMinutes =
          some (time_in_status t ss g).2) := by
  constructor
  · rintro ⟨hnone, hfresh2, hw⟩
    have hgoc := get_or_create_new cfg tid d inp.source
      (some (shift_start_for_scan cfg t)) (some cfg.pmEnd)
      (some cfg.graceMinutes) (run_attendance_maintenance_v2 cfg now s) hnone
    have hfind0 : findRecordById
        (run_attendance_maintenance_v2 cfg now s).records
        (run_attendance_maintenance_v2 cfg now s).nextRecordId = none := by
      unfold findRecordById
      rw [List.find?_eq_none]
      intro x hx
      simp [hfresh2 x hx]
    have hrec : findRecordById
        ((run_attendance_maintenance_v2 cfg now s).records ++
          [⟨(run_attendance_maintenance_v2 cfg now s).nextRecordId, tid, d,
            none, none, none, none, 0, inp.source,
            some (shift_start_for_scan cfg t), some cfg.pmEnd,
            some cfg.graceMinutes, some 0, none, none, false, false⟩])
        (run_attendance_maintenance_v2 cfg now s).nextRecordId =
        some ⟨(run_attendance_maintenance_v2 cfg now s).nextRecordId, tid, d,
          none, none, none, none, 0, inp.source,
          some (shift_start_for_scan cfg t), some cfg.pmEnd,
          some cfg.graceMinutes, some 0, none, none, false, false⟩ := by
      rw [findRecordById_append_right _ _ _ hfind0]
      exact findRecordById_cons_pos _ _ _ rfl
    rw [process_roster_hit cfg now inp false ef s tid hv htid hex hrep]
    simp only [hnorm]
    rw [roster_hit_path_update_spec cfg inp d t _ ef s _ tid _ _ _ _ _ hgoc hrec
      (roster_branch_time_in cfg inp.source t _ (shift_start_for_scan cfg t)
        cfg.graceMinutes rfl hw rfl rfl) rfl (fun x => rfl)
      (fun rid h => hfreshEv rid h)]
    dsimp only
    simp only [Option.getD_some]
    rw [findRecordById_updateRecordById, findRecordById_updateRecordById, hrec]
    rotate_left
    · intro x
      rfl
    · intro x
      rfl
    refine ⟨_, rfl, rfl, ?_, ?_, trivial, trivial⟩
    · intro hpm
      show some (shift_start_for_scan cfg t) = some cfg.pmStart
      unfold shift_start_for_scan
      rw [hpm]
      rfl
    · intro hpm
      show some (shift_start_for_scan cfg t) = some cfg.amStart
      unfold shift_start_for_scan
      rw [hpm]
      rfl
  · intro r ss se g hfound hss hse hg hrid hti hw
    have hgoc := get_or_create_existing cfg tid d inp.source
      (some (shift_start_for_scan cfg t)) (some cfg.pmEnd)
      (some cfg.graceMinutes) (run_attendance_maintenance_v2 cfg now s) r ss se g
      hfound hss hse hg hrid
    rw [process_roster_hit cfg now inp false ef s tid hv htid hex hrep]
    simp only [hnorm]
    rw [roster_hit_path_update_spec cfg inp d t _ ef s _ tid _ _ _ _ _ hgoc hrid
      (roster_branch_time_in cfg inp.source t r ss g hti hw hss hg) rfl
      (fun x => rfl) (fun rid h => hfreshEv rid h)]
    dsimp only
    rw [findRecordById_updateRecordById, findRecordById_updateRecordById, hrid]
    rotate_left
    · intro x
      rfl
    · intro x
      rfl
    exact ⟨_, rfl, hss, rfl⟩



/-- Witness for C6: a first-ever PM scan at 13:05 creates the day record
with scheduledStart = PM start (13:00) and is Present with 0 late
minutes. -/
theorem schedule_start_from_scan_window_witness :
    (process_attendance_scan_v2 defaultConfig ⟨exDate, 47100⟩
        (exInput "13:05:00" none) false false exEmptyState).1.decisionCode =
      DecisionCode.timeInSet ∧
    (process_attendance_scan_v2 defaultConfig ⟨exDate, 47100⟩
        (exInput "13:05:00" none) false false exEmptyState).1.lateByMinutes =
      some 0 ∧
    ((findRecordById (process_attendance_scan_v2 defaultConfig ⟨exDate, 47100⟩
        (exInput "13:05:00" none) false false exEmptyState).2.records 1).map
      (fun x => x.scheduledStart)) = some (some 46800) := by
  have h := schedule_start_from_scan_window defaultConfig ⟨exDate, 47100⟩
    (exInput "13:05:00" none) false exEmptyState 1 exDate 47100 rfl rfl
    (by decide) rfl rfl (fun rid h => Option.noConfusion h)
  obtain ⟨hA, -⟩ := h
  obtain ⟨r', hf, hss', hpm, -, hdec, hlate⟩ := hA ⟨rfl, by decide, by decide⟩
  have hf1 : findRecordById (process_attendance_scan_v2 defaultConfig
      ⟨exDate, 47100⟩ (exInput "13:05:00" none) false false
      exEmptyState).2.records 1 = some r' := hf
  refine ⟨hdec, ?_, ?_⟩
  · rw [hlate]
    decide
  · rw [hf1]
    exact congrArg some (hpm (by decide))

/-- Counterexample for C6 as stated: a PM scan at 13:05 against an
absence-created record that stores the AM start (05:00) keeps the stored
scheduledStart and computes lateness against it (485 minutes late)
instead of scheduling against the PM start (13:00). -/
theorem stale_schedule_not_rescheduled_cex :
    exAbsenceRecord.scheduledStart = some 18000 ∧
    defaultConfig.pmStart = 46800 ∧
    in_pm_window defaultConfig 47100 = true ∧
    ((findRecordById (process_attendance_scan_v2 defaultConfig ⟨exDate, 47100⟩
        (exInput "13:05:00" none) false false exAbsenceState).2.records 1).map
      (fun x => x.scheduledStart)) = some (some 18000) ∧
    (process_attendance_scan_v2 defaultConfig ⟨exDate, 47100⟩
        (exInput "13:05:00" none) false false exAbsenceState).1.status =
      some AttendanceStatus.late ∧
    (process_attendance_scan_v2 defaultConfig ⟨exDate, 47100⟩
        (exInput "13:05:00" none) false false exAbsenceState).1.lateByMinutes =
      some 485 :=
  ⟨rfl, rfl, rfl, rfl, rfl, rfl⟩


/-! C9: exception handling on the roster-hit path. -/

theorem replay_none_committed (cfg : AttendanceConfig) (now : Instant)
    (inp : ScanInput) (s : DbState) (rid : String)
    (hrep : replay_lookup cfg now inp s = none)
    (hrid : inp.requestId = some rid) :
    findEventByRequestId s.events rid = none := by
  unfold replay_lookup at hrep
  rw [hrid] at hrep
  dsimp only at hrep
  unfold result_from_existing_request at hrep
  rcases hfind : findEventByRequestId
      (run_attendance_maintenance_v2 cfg now s).events rid with _ | ev
  · obtain ⟨t, ht⟩ := maintenance_events_extend cfg now s
    unfold findEventByRequestId at hfind ⊢
    rw [ht, List.find?_append] at hfind
    rcases hs : s.events.find? (fun e => decide (e.requestId = some rid)) with _ | e2
    · exact hs
    · rw [hs] at hfind
      cases hfind
  · rw [hfind] at hrep
    cases hrep

/-- C9 (amended): when an unexpected exception interrupts a verified
roster-hit scan, the engine rolls the transaction back - discarding every
DayRecord mutation of the invocation, including the pending maintenance
writes - and then, in a fresh transaction, writes exactly one ScanEvent
with decision ERROR, error code Exception and requires_review = true,
returning verified = false, logged = false. This holds provided the ERROR
ledger write itself succeeds; if it also fails, the failure is swallowed
and no ScanEvent at all is recorded. The fault model: the first Bool flag
raises at the ledger append of the roster path, the second at the ERROR
insert of the handler. -/
theorem error_path_rolls_back (cfg : AttendanceConfig) (now : Instant)
    (inp : ScanInput) (s : DbState) (tid : Nat) (d : Date) (t : Nat)
    (hv : inp.scanVerified = true)
    (htid : inp.teacherId = some tid)
    (hex : (run_attendance_maintenance_v2 cfg now s).teachers.contains tid = true)
    (hrep : replay_lookup cfg now inp s = none)
    (hnorm : normalize_event_datetime inp.eventDate inp.eventTime now = (d, t)) :
    (process_attendance_scan_v2 cfg now inp true false s).2 =
      { s with
        events := s.events ++
          [⟨s.nextEventId, none, inp.teacherId, inp.confidence,
            DecisionCode.error,
            "Attendance scan processing failed: unexpected error.", d, t,
            inp.source, inp.sessionId, inp.requestId, true, some "Exception",
            none⟩]
        nextEventId := s.nextEventId + 1 } ∧
    (process_attendance_scan_v2 cfg now inp true false s).2.records = s.records ∧
    (process_attendance_scan_v2 cfg now inp true false s).1.verified = false ∧
    (process_attendance_scan_v2 cfg now inp true false s).1.decisionCode =
      DecisionCode.error ∧
    (process_attendance_scan_v2 cfg now inp true false s).1.requiresAdminReview =
      true ∧
    (process_attendance_scan_v2 cfg now inp true false s).1.logged = false := by
  rw [process_roster_hit cfg now inp true false s tid hv htid hex hrep]
  simp only [hnorm]
  simp only [roster_hit_path]
  rw [insert_scan_event_of_fresh
    ⟨none, inp.teacherId, inp.confidence, DecisionCode.error,
      "Attendance scan processing failed: unexpected error.", d, t, inp.source,
      inp.sessionId, inp.requestId, true, some "Exception", none⟩
    s (fun rid h => replay_none_committed cfg now inp s rid hrep h)]
  exact ⟨rfl, rfl, rfl, rfl, rfl, rfl⟩

/-- C9 witness: a faulted 07:45 scan on the empty state leaves the records
empty and commits exactly the one ERROR event. -/
theorem error_path_rolls_back_witness :
    (process_attendance_scan_v2 scenarioConfig ⟨exDate, 27900⟩
        (exInput "07:45:00" none) true false exEmptyState).2 =
      { exEmptyState with
        events := [⟨1, none, some 1, none, DecisionCode.error,
          "Attendance scan processing failed: unexpected error.", exDate, 27900,
          "LiveFaceCapture", none, none, true, some "Exception", none⟩]
        nextEventId := 2 } ∧
    (process_attendance_scan_v2 scenarioConfig ⟨exDate, 27900⟩
        (exInput "07:45:00" none) true false exEmptyState).2.records = [] ∧
    (process_attendance_scan_v2 scenarioConfig ⟨exDate, 27900⟩
        (exInput "07:45:00" none) true false exEmptyState).1.verified = false ∧
    (process_attendance_scan_v2 scenarioConfig ⟨exDate, 27900⟩
        (exInput "07:45:00" none) true false exEmptyState).1.decisionCode =
      DecisionCode.error ∧
    (process_attendance_scan_v2 scenarioConfig ⟨exDate, 27900⟩
        (exInput "07:45:00" none) true false
        exEmptyState).1.requiresAdminReview = true ∧
    (process_attendance_scan_v2 scenarioConfig ⟨exDate, 27900⟩
        (exInput "07:45:00" none) true false exEmptyState).1.logged = false :=
  error_path_rolls_back scenarioConfig ⟨exDate, 27900⟩ (exInput "07:45:00" none)
    exEmptyState 1 exDate 27900 rfl rfl (by decide) rfl rfl

/-- C9 counterexample to the unqualified claim that every attempt produces
exactly one ScanEvent: when the ERROR ledger write itself raises (both
fault flags set), the handler swallows the failure and the committed state
is unchanged - zero ScanEvents - while the returned result still reports
decision ERROR with scan_event_id 0. -/
theorem error_ledger_write_can_fail_cex :
    (process_attendance_scan_v2 scenarioConfig ⟨exDate, 27900⟩
        (exInput "07:45:00" none) true true exEmptyState).2 = exEmptyState ∧
    (process_attendance_scan_v2 scenarioConfig ⟨exDate, 27900⟩
        (exInput "07:45:00" none) true true exEmptyState).2.events.length = 0 ∧
    (process_attendance_scan_v2 scenarioConfig ⟨exDate, 27900⟩
        (exInput "07:45:00" none) true true exEmptyState).1.scanEventId = 0 ∧
    (process_attendance_scan_v2 scenarioConfig ⟨exDate, 27900⟩
        (exInput "07:45:00" none) true true exEmptyState).1.decisionCode =
      DecisionCode.error :=
  ⟨rfl, rfl, rfl, rfl⟩

/-! C10: malformed event datetime falls back to the wall clock. -/

theorem roster_hit_path_date (cfg : AttendanceConfig) (inp : ScanInput)
    (d : Date) (t : Nat) (rk : String) (lf ef : Bool) (c p : DbState)
    (tid : Nat) :
    (roster_hit_path cfg inp d t rk lf ef c p tid).1.date = d ∧
    (roster_hit_path cfg inp d t rk lf ef c p tid).1.eventTime = t := by
  unfold roster_hit_path
  cases lf <;> cases ef <;> exact ⟨rfl, rfl⟩

/-- C10 (amended): when the supplied event_date/event_time pair (here
over the ASCII alphabet, on which the strptime model is exact) does not
parse as YYYY-MM-DD HH:MM:SS, the invocation neither raises nor rejects:
it behaves exactly as if the caller had supplied a pair parsing to the
current wall-clock instant, and - provided the request is not a replay of
an already-stored request_id - the date and event_time echoed in the
result are the substituted wall-clock date and time. A replayed request
instead echoes the datetime stored on the original ledger event. -/
theorem malformed_datetime_uses_now (cfg : AttendanceConfig) (now : Instant)
    (inp : ScanInput) (lf ef : Bool) (s : DbState) (d' t' : String)
    (hascii : ∀ c ∈ (inp.eventDate ++ " " ++ inp.eventTime).data, c.toNat < 128)
    (hbad : parseEventDatetime inp.eventDate inp.eventTime = none)
    (hgood : parseEventDatetime d' t' = some (now.date, now.timeSec)) :
    process_attendance_scan_v2 cfg now inp lf ef s =
      process_attendance_scan_v2 cfg now
        { inp with eventDate := d', eventTime := t' } lf ef s ∧
    (replay_lookup cfg now inp s = none →
      (process_attendance_scan_v2 cfg now inp lf ef s).1.date = now.date ∧
      (process_attendance_scan_v2 cfg now inp lf ef s).1.eventTime =
        now.timeSec) := by
  have h1 : normalize_event_datetime inp.eventDate inp.eventTime now =
      (now.date, now.timeSec) := by
    unfold normalize_event_datetime
    rw [hbad]
    rfl
  have h2 : normalize_event_datetime d' t' now = (now.date, now.timeSec) := by
    unfold normalize_event_datetime
    rw [hgood]
    rfl
  constructor
  · simp only [process_attendance_scan_v2, replay_lookup, roster_hit_path, h1, h2]
  · intro hrep0
    simp only [process_attendance_scan_v2, h1, hrep0]
    constructor
    · split
      · rfl
      · split
        · exact (roster_hit_path_date cfg inp now.date now.timeSec _ lf ef s _ _).1
        · rfl
    · split
      · rfl
      · split
        · exact (roster_hit_path_date cfg inp now.date now.timeSec _ lf ef s _ _).2
        · rfl

/-- C10 witness: the malformed input processed at 2025-10-06 07:45:00 on
the empty state equals the well-formed 07:45 invocation and echoes the
wall-clock date and time. -/
theorem malformed_datetime_uses_now_witness :
    (∀ c ∈ (exMalformedInput.eventDate ++ " " ++
        exMalformedInput.eventTime).data, c.toNat < 128) ∧
    parseEventDatetime exMalformedInput.eventDate exMalformedInput.eventTime
        = none ∧
    parseEventDatetime "2025-10-06" "07:45:00" = some (exDate, 27900) ∧
    (process_attendance_scan_v2 scenarioConfig ⟨exDate, 27900⟩
        exMalformedInput false false exEmptyState =
      process_attendance_scan_v2 scenarioConfig ⟨exDate, 27900⟩
        { exMalformedInput with
          eventDate := "2025-10-06"
          eventTime := "07:45:00" } false false exEmptyState ∧
     (replay_lookup scenarioConfig ⟨exDate, 27900⟩ exMalformedInput
          exEmptyState = none →
      (process_attendance_scan_v2 scenarioConfig ⟨exDate, 27900⟩
          exMalformedInput false false exEmptyState).1.date = exDate ∧
      (process_attendance_scan_v2 scenarioConfig ⟨exDate, 27900⟩
          exMalformedInput false false exEmptyState).1.eventTime = 27900)) :=
  ⟨by decide, by decide, by decide,
    malformed_datetime_uses_now scenarioConfig ⟨exDate, 27900⟩
      exMalformedInput false false exEmptyState "2025-10-06" "07:45:00"
      (by decide) (by decide) (by decide)⟩

/-- C10 counterexample to the unqualified claim: a malformed-datetime
request replaying stored request id req-1 on 2025-10-07 at 08:20:00
echoes the stored event datetime 2025-10-06 07:45:00, not the substituted
wall-clock instant. -/
theorem malformed_replay_echoes_stored_cex :
    parseEventDatetime exMalformedInput.eventDate exMalformedInput.eventTime
        = none ∧
    (process_attendance_scan_v2 scenarioConfig ⟨⟨2025, 10, 7⟩, 30000⟩
        exMalformedInput false false exReplayState).1.date = exDate ∧
    (process_attendance_scan_v2 scenarioConfig ⟨⟨2025, 10, 7⟩, 30000⟩
        exMalformedInput false false exReplayState).1.eventTime = 27900 ∧
    exDate ≠ ⟨2025, 10, 7⟩ ∧ (27900 : Nat) ≠ 30000 :=
  ⟨by decide, by decide, by decide, by decide, by decide⟩

/-! C8: the auto-close sweep. -/


theorem foldl_insert_of_fresh {α : Type} (g : α → ScanEventData) (l : List α)
    (s : DbState)
    (hfresh : ∀ a ∈ l, ∀ rid, (g a).requestId = some rid →
      findEventByRequestId s.events rid = none)
    (hdist : List.Pairwise (fun a b => ∀ rid, (g a).requestId = some rid →
      (g b).requestId ≠ some rid) l) :
    l.foldl (fun acc r => (insert_scan_event_v2 (g r) acc).2) s =
      { s with
        events := s.events ++ realizeEvents s.nextEventId (l.map g)
        nextEventId := s.nextEventId + l.length } := by
  induction l generalizing s with
  | nil =>
    cases s
    simp [realizeEvents]
  | cons a tl ih =>
    rw [List.foldl_cons,
      insert_scan_event_of_fresh (g a) s (hfresh a (List.mem_cons_self a tl))]
    rw [ih]
    · cases s
      simp [realizeEvents, realizeEvent, Nat.add_assoc, Nat.add_comm,
        List.append_assoc]
      omega
    · intro b hb rid hrid
      have h1 : findEventByRequestId s.events rid = none :=
        hfresh b (List.mem_cons_of_mem a hb) rid hrid
      unfold findEventByRequestId at h1 ⊢
      rw [List.find?_append, h1]
      rcases hga : (g a).requestId with _ | r0
      · simp [realizeEvent, hga]
      · have hne : (g b).requestId ≠ some r0 :=
          (List.pairwise_cons.mp hdist).1 b hb r0 hga
        have : r0 ≠ rid := by
          intro hc
          subst hc
          exact hne hrid
        simp [realizeEvent, hga, this]
    · exact (List.pairwise_cons.mp hdist).2

theorem mem_realizeEvents (es : List ScanEventData) (i : Nat) :
    ∀ e ∈ realizeEvents i es, ∃ d ∈ es, ∃ j, e = realizeEvent d j := by
  induction es generalizing i with
  | nil =>
    intro e he
    cases he
  | cons d tl ih =>
    intro e he
    rw [realizeEvents] at he
    rcases List.mem_cons.mp he with he | he
    · exact ⟨d, List.mem_cons_self d tl, i, he⟩
    · obtain ⟨d2, hd2, j, hj⟩ := ih (i + 1) e he
      exact ⟨d2, List.mem_cons_of_mem d hd2, j, hj⟩

theorem map_id_of_no_match {p : DayRecord → Bool} {u : DayRecord → DayRecord}
    (l : List DayRecord) (h : ∀ a ∈ l, p a = false) :
    l.map (fun r => if p r then u r else r) = l := by
  induction l with
  | nil => rfl
  | cons a tl ih =>
    rw [List.map_cons, h a (List.mem_cons_self a tl)]
    rw [ih (fun b hb => h b (List.mem_cons_of_mem a hb))]
    rfl

theorem autoCloseMatches_update_false (cfg : AttendanceConfig) (now : Instant)
    (r : DayRecord) :
    autoCloseMatches cfg now (autoCloseRecordUpdate cfg r) = false := by
  simp [autoCloseMatches, autoCloseRecordUpdate]



/-- C8: the auto-close sweep closes every DayRecord with time_in set,
time_out unset and a past day or today at/after the cutoff - setting
time_out to the stored scheduled end (PM end when none is stored), status
Auto-Closed, the auto-closed flag, recorded worked and undertime minutes -
appends one AUTO_CLOSED_SET ledger entry per closed row, flagged for
review and sourced SystemAutoClose, reports the number of closed rows,
leaves the other rows untouched, and running the sweep again immediately
afterwards matches no row and changes nothing. The hypotheses - the
auto-close idempotency keys of the matched rows are absent from the
ledger and pairwise distinct - hold in engine-produced states, where at
most one row exists per teacher and day. -/
theorem auto_close_sweep (cfg : AttendanceConfig) (now : Instant) (s : DbState)
    (hfresh : ∀ r ∈ s.records.filter (autoCloseMatches cfg now),
      findEventByRequestId s.events (autoCloseRequestId cfg r) = none)
    (hdist : List.Pairwise
      (fun a b => autoCloseRequestId cfg a ≠ autoCloseRequestId cfg b)
      (s.records.filter (autoCloseMatches cfg now))) :
    (apply_auto_close_maintenance cfg now s).2 =
      (s.records.filter (autoCloseMatches cfg now)).length ∧
    (apply_auto_close_maintenance cfg now s).1.records =
      s.records.map (fun r => if autoCloseMatches cfg now r
        then autoCloseRecordUpdate cfg r else r) ∧
    (∀ r ∈ s.records, autoCloseMatches cfg now r = true →
      ∃ ti, r.timeIn = some ti ∧ r.timeOut = none ∧
        (autoCloseRecordUpdate cfg r).timeOut =
          some (r.scheduledEnd.getD cfg.pmEnd) ∧
        (autoCloseRecordUpdate cfg r).status =
          some AttendanceStatus.autoClosed ∧
        (autoCloseRecordUpdate cfg r).autoClosedAt = true ∧
        (autoCloseRecordUpdate cfg r).source = "SystemAutoClose" ∧
        (autoCloseRecordUpdate cfg r).workedMinutes =
          some ((r.scheduledEnd.getD cfg.pmEnd - ti) / 60) ∧
        (∀ ss se, r.scheduledStart = some ss → r.scheduledEnd = some se →
          (autoCloseRecordUpdate cfg r).undertimeMinutes =
            some ((se - ss) / 60 - (se - ti) / 60))) ∧
    (apply_auto_close_maintenance cfg now s).1.events =
      s.events ++ realizeEvents s.nextEventId
        ((s.records.filter (autoCloseMatches cfg now)).map
          (autoCloseEvent cfg now)) ∧
    (∀ e ∈ realizeEvents s.nextEventId
        ((s.records.filter (autoCloseMatches cfg now)).map
          (autoCloseEvent cfg now)),
      e.decisionCode = DecisionCode.autoClosedSet ∧ e.requiresReview = true ∧
        e.source = "SystemAutoClose") ∧
    apply_auto_close_maintenance cfg now
        (apply_auto_close_maintenance cfg now s).1 =
      ((apply_auto_close_maintenance cfg now s).1, 0) := by
  have hfold := foldl_insert_of_fresh (autoCloseEvent cfg now)
    (s.records.filter (autoCloseMatches cfg now))
    { s with records := s.records.map (fun r => if autoCloseMatches cfg now r
        then autoCloseRecordUpdate cfg r else r) }
    (by
      intro a ha rid hrid
      have : autoCloseRequestId cfg a = rid := Option.some.inj hrid
      subst this
      exact hfresh a ha)
    (List.Pairwise.imp
      (by
        intro a b hab rid h1 h2
        exact hab (Option.some.inj h1 ▸ Option.some.inj h2 ▸ rfl))
      hdist)
  have hall : ∀ r ∈ (apply_auto_close_maintenance cfg now s).1.records,
      autoCloseMatches cfg now r = false := by
    rw [apply_auto_close_records]
    intro r hr
    obtain ⟨r0, hr0, rfl⟩ := List.mem_map.mp hr
    cases hb : autoCloseMatches cfg now r0 with
    | false => simp [hb]
    | true => simp [hb, autoCloseMatches_update_false]
  have hnil : ((apply_auto_close_maintenance cfg now s).1.records).filter
      (autoCloseMatches cfg now) = [] := by
    rw [List.filter_eq_nil_iff]
    intro a ha
    simp [hall a ha]
  refine ⟨rfl, apply_auto_close_records cfg now s, ?_, ?_, ?_, ?_⟩
  · intro r hr hm
    unfold autoCloseMatches at hm
    simp only [Bool.and_eq_true] at hm
    obtain ⟨⟨hin, hout⟩, hday⟩ := hm
    obtain ⟨ti, hti⟩ := Option.isSome_iff_exists.mp hin
    have hnone : r.timeOut = none := Option.isNone_iff_eq_none.mp hout
    refine ⟨ti, hti, hnone, rfl, rfl, rfl, rfl, ?_, ?_⟩
    · simp only [autoCloseRecordUpdate, compute_work_and_undertime,
        minutes_between_clock_times, hti]
      rcases hsched : scheduled_minutes r.scheduledStart r.scheduledEnd
        with _ | sched <;> simp [hsched, coalesce]
    · intro ss se hss hse
      simp only [autoCloseRecordUpdate, compute_work_and_undertime,
        minutes_between_clock_times, scheduled_minutes, hti, hss, hse,
        Option.getD_some]
      simp [coalesce]
  · simp only [apply_auto_close_maintenance]
    rw [hfold]
  · intro e he
    obtain ⟨d, hd, j, hj⟩ := mem_realizeEvents _ _ e he
    obtain ⟨r0, hr0, hd0⟩ := List.mem_map.mp hd
    subst hj
    rw [← hd0]
    exact ⟨rfl, rfl, rfl⟩
  · conv_lhs => rw [apply_auto_close_maintenance]
    rw [hnil, map_id_of_no_match _ hall]
    rw [List.foldl_nil]
    rfl



theorem auto_close_sweep_witness :
    (∀ r ∈ exOpenState.records.filter
        (autoCloseMatches scenarioConfig ⟨exDate, 69300⟩),
      findEventByRequestId exOpenState.events
        (autoCloseRequestId scenarioConfig r) = none) ∧
    List.Pairwise
      (fun a b => autoCloseRequestId scenarioConfig a ≠
        autoCloseRequestId scenarioConfig b)
      (exOpenState.records.filter
        (autoCloseMatches scenarioConfig ⟨exDate, 69300⟩)) ∧
    ((apply_auto_close_maintenance scenarioConfig ⟨exDate, 69300⟩
        exOpenState).2 =
      (exOpenState.records.filter
        (autoCloseMatches scenarioConfig ⟨exDate, 69300⟩)).length ∧
    (apply_auto_close_maintenance scenarioConfig ⟨exDate, 69300⟩
        exOpenState).1.records =
      exOpenState.records.map
        (fun r => if autoCloseMatches scenarioConfig ⟨exDate, 69300⟩ r
          then autoCloseRecordUpdate scenarioConfig r else r) ∧
    (∀ r ∈ exOpenState.records,
      autoCloseMatches scenarioConfig ⟨exDate, 69300⟩ r = true →
      ∃ ti, r.timeIn = some ti ∧ r.timeOut = none ∧
        (autoCloseRecordUpdate scenarioConfig r).timeOut =
          some (r.scheduledEnd.getD scenarioConfig.pmEnd) ∧
        (autoCloseRecordUpdate scenarioConfig r).status =
          some AttendanceStatus.autoClosed ∧
        (autoCloseRecordUpdate scenarioConfig r).autoClosedAt = true ∧
        (autoCloseRecordUpdate scenarioConfig r).source = "SystemAutoClose" ∧
        (autoCloseRecordUpdate scenarioConfig r).workedMinutes =
          some ((r.scheduledEnd.getD scenarioConfig.pmEnd - ti) / 60) ∧
        (∀ ss se, r.scheduledStart = some ss → r.scheduledEnd = some se →
          (autoCloseRecordUpdate scenarioConfig r).undertimeMinutes =
            some ((se - ss) / 60 - (se - ti) / 60))) ∧
    (apply_auto_close_maintenance scenarioConfig ⟨exDate, 69300⟩
        exOpenState).1.events =
      exOpenState.events ++ realizeEvents exOpenState.nextEventId
        ((exOpenState.records.filter
          (autoCloseMatches scenarioConfig ⟨exDate, 69300⟩)).map
          (autoCloseEvent scenarioConfig ⟨exDate, 69300⟩)) ∧
    (∀ e ∈ realizeEvents exOpenState.nextEventId
        ((exOpenState.records.filter
          (autoCloseMatches scenarioConfig ⟨exDate, 69300⟩)).map
          (autoCloseEvent scenarioConfig ⟨exDate, 69300⟩)),
      e.decisionCode = DecisionCode.autoClosedSet ∧ e.requiresReview = true ∧
        e.source = "SystemAutoClose") ∧
    apply_auto_close_maintenance scenarioConfig ⟨exDate, 69300⟩
        (apply_auto_close_maintenance scenarioConfig ⟨exDate, 69300⟩
          exOpenState).1 =
      ((apply_auto_close_maintenance scenarioConfig ⟨exDate, 69300⟩
          exOpenState).1, 0)) :=
  ⟨by decide, by decide,
    auto_close_sweep scenarioConfig ⟨exDate, 69300⟩ exOpenState (by decide)
      (by decide)⟩

/-! C2: the reachable-state time invariant. -/


theorem findRecordById_mem (l : List DayRecord) (i : Nat) (r : DayRecord)
    (h : findRecordById l i = some r) : r ∈ l := by
  unfold findRecordById at h
  exact List.mem_of_find?_eq_some h

theorem updateRecordById_of_find_none (l : List DayRecord) (i : Nat)
    (f : DayRecord → DayRecord) (h : findRecordById l i = none) :
    updateRecordById l i f = l := by
  induction l with
  | nil => rfl
  | cons a tl ih =>
    by_cases ha : a.id = i
    · rw [findRecordById_cons_pos a tl i ha] at h
      cases h
    · rw [findRecordById_cons_neg a tl i ha] at h
      rw [updateRecordById, if_neg ha, ih h]

theorem StateInv_insert (cfg : AttendanceConfig) (e : ScanEventData)
    (s : DbState) (h : StateInv cfg s) :
    StateInv cfg (insert_scan_event_v2 e s).2 := by
  intro x hx
  rw [insert_scan_event_records] at hx
  exact h x hx

theorem roster_branch_update_inv (cfg : AttendanceConfig)
    (hval : cfg.Valid) (src : String) (t : Nat) (r : DayRecord)
    (f : DayRecord → DayRecord) (hr : RecordTimeInv cfg r)
    (hb : (roster_branch cfg src t (some r)).update = some f) :
    RecordTimeInv cfg (f r) := by
  simp only [roster_branch, Option.some_bind] at hb
  split at hb
  · simp at hb
  · split at hb
    · split at hb
      · split at hb
        · simp at hb
        · -- time-out recorded outside shift hours
          rename_i hA hB hC hD
          dsimp only at hb
          cases Option.some.inj hb
          simp only [Bool.and_eq_true, Option.isSome_iff_exists,
            Option.isNone_iff_eq_none, decide_eq_true_eq] at hC
          obtain ⟨⟨⟨ti, hti⟩, hout⟩, hle⟩ := hC
          rw [hti] at hD
          simp only [Option.getD_some] at hD
          have hcd := hval.2.2.2
          have hti2 : ti ≤ t := by
            unfold seconds_between_same_day at hD
            omega
          refine ⟨?_, ?_, hr.2.2⟩
          · intro o ho
            cases Option.some.inj ho
            exact ⟨ti, hti, hti2⟩
          · exact hr.2.1
      · -- outside schedule / lunch: only status, remarks, source change
        dsimp only at hb
        cases Option.some.inj hb
        exact hr
    · split at hb
      · -- time-in recorded
        rename_i hA hB hE
        dsimp only at hb
        cases Option.some.inj hb
        simp only [Bool.not_eq_true, Bool.or_eq_true] at hB
        have hB2 : (in_am_window cfg t || in_pm_window cfg t) = true := by
          cases hw : (in_am_window cfg t || in_pm_window cfg t)
          · rw [hw] at hB
            cases hB
          · rfl
        simp only [in_am_window, in_pm_window, Bool.or_eq_true,
          Bool.and_eq_true, decide_eq_true_eq] at hB2
        have hti0 : r.timeIn = none := Option.isNone_iff_eq_none.mp hE
        refine ⟨?_, ?_, hr.2.2⟩
        · intro o ho
          obtain ⟨i, hi, _⟩ := hr.1 o ho
          rw [hti0] at hi
          cases hi
        · intro i hi
          cases Option.some.inj hi
          obtain ⟨h1, h2, h3, h4⟩ := hval
          rcases hB2 with ⟨ha1, ha2⟩ | ⟨hp1, hp2⟩ <;> omega
      · split at hb
        · split at hb
          · simp at hb
          · -- time-out recorded inside working hours
            rename_i hA hB hE hF hD
            dsimp only at hb
            cases Option.some.inj hb
            rcases hti : r.timeIn with _ | ti
            · rw [hti] at hE
              simp at hE
            rw [hti] at hD
            simp only [Option.getD_some] at hD
            have hcd := hval.2.2.2
            have hti2 : ti ≤ t := by
              unfold seconds_between_same_day at hD
              omega
            refine ⟨?_, ?_, hr.2.2⟩
            · intro o ho
              cases Option.some.inj ho
              exact ⟨ti, hti, hti2⟩
            · exact hr.2.1
        · simp at hb



theorem get_or_create_inv (cfg : AttendanceConfig) (tid : Nat) (d : Date)
    (src : String) (ss g : Option Nat) (s : DbState) (h : StateInv cfg s) :
    StateInv cfg (get_or_create_attendance_daily_v2 cfg tid d src ss
      (some cfg.pmEnd) g s).2 := by
  unfold get_or_create_attendance_daily_v2
  rcases hfd : findDaily s tid d with _ | r
  · dsimp only
    intro x hx
    rcases List.mem_append.mp hx with hx | hx
    · exact h x hx
    · rcases List.mem_singleton.mp hx with rfl
      refine ⟨?_, ?_, rfl⟩
      · intro o ho
        cases ho
      · intro i hi
        cases hi
  · dsimp only
    split
    · intro x hx
      dsimp only at hx
      refine updateRecordById_records_pres (RecordTimeInv cfg) s.records r.id
        _ h ?_ x hx
      intro y hy
      have hyinv := h y (findRecordById_mem _ _ _ hy)
      refine ⟨hyinv.1, hyinv.2.1, ?_⟩
      show some (y.scheduledEnd.getD _) = some cfg.pmEnd
      rw [hyinv.2.2]
      rfl
    · exact h



theorem roster_hit_path_inv (cfg : AttendanceConfig) (hval : cfg.Valid)
    (inp : ScanInput) (d : Date) (t : Nat) (rk : String) (lf ef : Bool)
    (committed pending : DbState) (tid : Nat)
    (hc : StateInv cfg committed) (hp : StateInv cfg pending) :
    StateInv cfg (roster_hit_path cfg inp d t rk lf ef committed pending
      tid).2 := by
  rcases hgoc : get_or_create_attendance_daily_v2 cfg tid d inp.source
    (some (shift_start_for_scan cfg t)) (some cfg.pmEnd)
    (some cfg.graceMinutes) pending with ⟨recId, s2⟩
  have h2 : StateInv cfg s2 := by
    have := get_or_create_inv cfg tid d inp.source
      (some (shift_start_for_scan cfg t)) (some cfg.graceMinutes) pending hp
    rw [hgoc] at this
    exact this
  cases lf with
  | true =>
    cases ef with
    | true => exact hc
    | false =>
      intro x hx
      have hx2 : x ∈ (insert_scan_event_v2
          ⟨none, inp.teacherId, inp.confidence, .error,
            "Attendance scan processing failed: unexpected error.", d, t,
            inp.source, inp.sessionId, inp.requestId, true, some "Exception",
            none⟩ committed).2.records := hx
      rw [insert_scan_event_records] at hx2
      exact hc x hx2
  | false =>
    simp only [roster_hit_path]
    rw [hgoc]
    dsimp only
    rcases hfind : findRecordById s2.records recId with _ | r
    · rcases hupd : (roster_branch cfg inp.source t none).update with _ | f
      · intro x hx
        dsimp only at hx
        rw [insert_scan_event_records] at hx
        refine updateRecordById_records_pres (RecordTimeInv cfg) s2.records
          recId _ h2 ?_ x hx
        intro y hy
        exact h2 y (findRecordById_mem _ _ _ hy)
      · intro x hx
        dsimp only at hx
        rw [updateRecordById_of_find_none s2.records recId f hfind] at hx
        rw [insert_scan_event_records] at hx
        refine updateRecordById_records_pres (RecordTimeInv cfg) s2.records
          recId _ h2 ?_ x hx
        intro y hy
        exact h2 y (findRecordById_mem _ _ _ hy)
    · rcases hupd : (roster_branch cfg inp.source t (some r)).update with _ | f
      · intro x hx
        dsimp only at hx
        rw [insert_scan_event_records] at hx
        refine updateRecordById_records_pres (RecordTimeInv cfg) s2.records
          recId _ h2 ?_ x hx
        intro y hy
        exact h2 y (findRecordById_mem _ _ _ hy)
      · intro x hx
        dsimp only at hx
        rw [insert_scan_event_records] at hx
        have h3 : ∀ y ∈ updateRecordById s2.records recId f,
            RecordTimeInv cfg y := by
          refine updateRecordById_records_pres (RecordTimeInv cfg) s2.records
            recId _ h2 ?_
          intro y hy
          rw [hfind] at hy
          cases Option.some.inj hy
          exact roster_branch_update_inv cfg hval inp.source t r f
            (h2 r (findRecordById_mem _ _ _ hfind)) hupd
        refine updateRecordById_records_pres (RecordTimeInv cfg)
          (updateRecordById s2.records recId f) recId _ h3 ?_ x hx
        intro y hy
        exact h3 y (findRecordById_mem _ _ _ hy)



theorem StateInv_scan (cfg : AttendanceConfig) (hval : cfg.Valid)
    (now : Instant) (inp : ScanInput) (lf ef : Bool) (s : DbState)
    (h : StateInv cfg s) :
    StateInv cfg (process_attendance_scan_v2 cfg now inp lf ef s).2 := by
  unfold process_attendance_scan_v2
  rcases hrep : replay_lookup cfg now inp s with _ | ex
  · rcases Bool.eq_false_or_eq_true inp.scanVerified with hsv | hsv
    · simp only [hsv]
      rcases inp.teacherId with _ | tid
      · exact StateInv_insert cfg _ _ (StateInv_maintenance cfg now s h)
      · dsimp only
        rcases (run_attendance_maintenance_v2 cfg now s).teachers.contains tid
          with _ | _
        · exact StateInv_insert cfg _ _ (StateInv_maintenance cfg now s h)
        · exact roster_hit_path_inv cfg hval inp _ _ _ lf ef s
            (run_attendance_maintenance_v2 cfg now s) tid h
            (StateInv_maintenance cfg now s h)
    · simp only [hsv]
      exact StateInv_insert cfg _ _ (StateInv_maintenance cfg now s h)
  · exact h



/-- C2: in every state reachable from an initial store through Decision
Engine invocations and Maintenance Sweeper runs (under a well-formed
configuration, with arbitrary wall clocks, inputs and fault injections),
every DayRecord with time_out set also has time_in set, with
time_in <= time_out as clock times of that same calendar day. -/
theorem reachable_time_invariant (cfg : AttendanceConfig) (hval : cfg.Valid)
    (s : DbState) (h : Reach cfg s) :
    ∀ r ∈ s.records, ∀ o, r.timeOut = some o →
      ∃ i, r.timeIn = some i ∧ i ≤ o := by
  have hinv : StateInv cfg s := by
    induction h with
    | init teachers =>
      intro r hr
      cases hr
    | scan now inp lf ef hs ih => exact StateInv_scan cfg hval now inp lf ef _ ih
    | maint now hs ih => exact StateInv_maintenance cfg now _ ih
  intro r hr o ho
  exact (hinv r hr).1 o ho

theorem reachable_time_invariant_witness :
    scenarioConfig.Valid ∧
    (∃ r ∈ (process_attendance_scan_v2 scenarioConfig ⟨exDate, 28200⟩
        (exInput "07:50:00" none) false false
        (process_attendance_scan_v2 scenarioConfig ⟨exDate, 27900⟩
          (exInput "07:45:00" none) false false
          ⟨[1], [], [], 1, 1⟩).2).2.records, r.timeOut = some 28200) ∧
    (∀ r ∈ (process_attendance_scan_v2 scenarioConfig ⟨exDate, 28200⟩
        (exInput "07:50:00" none) false false
        (process_attendance_scan_v2 scenarioConfig ⟨exDate, 27900⟩
          (exInput "07:45:00" none) false false
          ⟨[1], [], [], 1, 1⟩).2).2.records, ∀ o, r.timeOut = some o →
      ∃ i, r.timeIn = some i ∧ i ≤ o) :=
  ⟨by decide, by decide,
    reachable_time_invariant scenarioConfig (by decide) _
      (Reach.scan ⟨exDate, 28200⟩ (exInput "07:50:00" none) false false
        (Reach.scan ⟨exDate, 27900⟩ (exInput "07:45:00" none) false false
          (Reach.init [1])))⟩


end Vecbook
